import Mathlib

set_option maxRecDepth 20000

/-!
Shallow embedding of the PDB debug-info scanner
(src/ddr/lib/ddr-scanner/pdb/PdbScanner.cpp).

The C++ heap of `Type` nodes is modelled as an arena (`Array TypeNode`);
a `Type *` pointer is an arena index (`Nat`), a possibly-NULL pointer is an
`Option Nat`.  A `Type **` slot address (used by the postponed-reference
list) is a `Slot` value naming the node and field it points into.
DIA symbols (`IDiaSymbol`) are modelled as the tree `Sym`; every fallible
accessor is an `Option` field (none = failing HRESULT).
Scanner functions that mutate `this` and return a `DDR_RC` become functions
`ScanState → ... → ScanState × DDR_RC`.  The mutually recursive family
around `addSymbol` is defined as one fuel-indexed interpreter `run`; a
`none` result means the C++ would not return normally (undefined behaviour
such as a NULL dereference, a non-terminating accessor-failure loop, or
insufficient fuel - concrete theorems always supply ample fuel).
-/

namespace PdbEmbed

inductive DDR_RC where
  | ok
  | error
deriving DecidableEq, Repr

/-- SymTag constants of the DIA SDK used by the scanner. -/
@[reducible] def symTagNull : Nat := 0
@[reducible] def symTagFunction : Nat := 5
@[reducible] def symTagData : Nat := 7
@[reducible] def symTagUDT : Nat := 11
@[reducible] def symTagEnum : Nat := 12
@[reducible] def symTagFunctionType : Nat := 13
@[reducible] def symTagPointerType : Nat := 14
@[reducible] def symTagArrayType : Nat := 15
@[reducible] def symTagBaseType : Nat := 16
@[reducible] def symTagTypedef : Nat := 17
@[reducible] def symTagBaseClass : Nat := 18
@[reducible] def symTagVTableShape : Nat := 24
@[reducible] def symTagVTable : Nat := 25

/-- Base-type codes (btXXX) special-cased by setBaseType. -/
@[reducible] def btInt : Nat := 6
@[reducible] def btUInt : Nat := 7
@[reducible] def btFloat : Nat := 8

/-- Location kinds used by setMemberOffset. -/
@[reducible] def locIsStatic : Nat := 1
@[reducible] def locIsThisRel : Nat := 4
@[reducible] def locIsBitField : Nat := 6

/-- Modifier flags.  Modelled from the spec: the Modifiers entity carries
const/volatile/unaligned flags (ddr/ir/Modifiers.hpp is not under src/);
the concrete bit values are irrelevant to every claim. -/
def CONST_TYPE : Nat := 1
def VOLATILE_TYPE : Nat := 2
def UNALIGNED_TYPE : Nat := 4

structure Modifiers where
  modifierFlags : Nat := 0
  pointerCount : Nat := 0
  referenceCount : Nat := 0
  arrayDims : List Nat := []
deriving DecidableEq, Repr

/-- Modelled from the spec: Modifiers::addArrayDimension appends one
array-dimension entry (ordered list of array dimensions, outermost
first; ddr/ir/Modifiers.hpp is not under src/). -/
def Modifiers.addArrayDimension (m : Modifiers) (n : Nat) : Modifiers :=
  { m with arrayDims := m.arrayDims ++ [n] }

/-- Variant tag of a Type node (Type/ClassUDT/EnumUDT/TypedefUDT). -/
inductive TypeTag where
  | base
  | cls
  | enum
  | tdef
deriving DecidableEq, Repr

structure DField where
  fname : String := ""
  fieldType : Option Nat := none
  offset : Nat := 0
  bitField : Option Nat := none
  isStatic : Bool := false
  fmodifiers : Modifiers := {}
deriving DecidableEq, Repr

/-- One heap Type node.  The single record covers Type, NamespaceUDT,
ClassUDT, EnumUDT and TypedefUDT; the C++ code casts between these
without checks, which the uniform record mirrors. -/
structure TypeNode where
  tag : TypeTag
  tname : String := ""
  sizeOf : Nat := 0
  outerNamespace : Option Nat := none
  subUDTs : List Nat := []
  fieldMembers : List DField := []
  enumMembers : List String := []
  superClass : Option Nat := none
  aliasedType : Option Nat := none
  tmodifiers : Modifiers := {}
deriving DecidableEq, Repr

def dummyNode : TypeNode := { tag := TypeTag.base }

/-- Address of a Type-reference slot (a C++ `Type **`). -/
inductive Slot where
  | fieldType (udtIdx : Nat) (fieldIdx : Nat)
  | superClass (udtIdx : Nat)
  | aliasedType (udtIdx : Nat)
deriving DecidableEq, Repr

/-- Scanner state: the heap arena (a list of nodes indexed by allocation
order, with its length cached in arenaLen), the name→node map `_typeMap`,
the IR root list `_ir->_types`, the postponed list `_postponedFields`,
and the loaded blacklist. -/
structure ScanState where
  arena : List TypeNode := []
  arenaLen : Nat := 0
  typeMap : List (String × Nat) := []
  irTypes : List Nat := []
  postponed : List (Slot × String) := []
  blacklist : List String := []
deriving DecidableEq, Repr

def listGetD : List TypeNode → Nat → TypeNode
  | [], _ => dummyNode
  | x :: _, 0 => x
  | _ :: xs, n + 1 => listGetD xs n

def listModify (g : TypeNode → TypeNode) : List TypeNode → Nat → List TypeNode
  | [], _ => []
  | x :: xs, 0 => g x :: xs
  | x :: xs, n + 1 => x :: listModify g xs n

def nodeAt (st : ScanState) (i : Nat) : TypeNode :=
  listGetD st.arena i

def modifyNode (st : ScanState) (i : Nat) (g : TypeNode → TypeNode) : ScanState :=
  { st with arena := listModify g st.arena i }

def setNodeAt (st : ScanState) (i : Nat) (nd : TypeNode) : ScanState :=
  modifyNode st i (fun _ => nd)

/-- Allocate a heap node (`new ...`), returning the new state and the
node index. -/
def allocNode (st : ScanState) (nd : TypeNode) : ScanState × Nat :=
  ({ st with arena := st.arena ++ [nd], arenaLen := st.arenaLen + 1 }, st.arenaLen)

/-- Association-list lookup modelling `_typeMap.find`. -/
def mapFind (m : List (String × Nat)) (k : String) : Option Nat :=
  match m with
  | [] => none
  | (a, v) :: rest =>
      match a == k with
      | true => some v
      | false => mapFind rest k

/-- Insert-or-assign modelling `_typeMap[k] = v`. -/
def mapAssign (m : List (String × Nat)) (k : String) (v : Nat) : List (String × Nat) :=
  match m with
  | [] => [(k, v)]
  | (a, w) :: rest =>
      match a == k with
      | true => (a, v) :: rest
      | false => (a, w) :: mapAssign rest k v

def setFieldTypeAt (v : Option Nat) : List DField → Nat → List DField
  | [], _ => []
  | fd :: rest, 0 => { fd with fieldType := v } :: rest
  | fd :: rest, n + 1 => fd :: setFieldTypeAt v rest n

/-- Write a Type reference through a slot (`*slot = value`). -/
def writeSlot (st : ScanState) (s : Slot) (v : Option Nat) : ScanState :=
  match s with
  | Slot.fieldType u f =>
      modifyNode st u (fun nd => { nd with fieldMembers := setFieldTypeAt v nd.fieldMembers f })
  | Slot.superClass u => modifyNode st u (fun nd => { nd with superClass := v })
  | Slot.aliasedType u => modifyNode st u (fun nd => { nd with aliasedType := v })

/-- Read a Type reference back through a slot. -/
def readSlot (st : ScanState) (s : Slot) : Option Nat :=
  match s with
  | Slot.fieldType u f =>
      match (nodeAt st u).fieldMembers.get? f with
      | some fd => fd.fieldType
      | none => none
  | Slot.superClass u => (nodeAt st u).superClass
  | Slot.aliasedType u => (nodeAt st u).aliasedType

/-! ## String machinery (std::string find / replace / substr) -/

/-- First index at which `pat` occurs in the character list (std::string::find). -/
def findSub (pat : List Char) : List Char → Option Nat
  | [] =>
      match pat.isEmpty with
      | true => some 0
      | false => none
  | c :: rest =>
      match pat.isPrefixOf (c :: rest) with
      | true => some 0
      | false => (findSub pat rest).map (fun n => n + 1)

def hasSub (pat : List Char) (cs : List Char) : Bool :=
  (findSub pat cs).isSome

def hasSubStr (s : String) (pat : List Char) : Bool :=
  hasSub pat s.data

def sepColons : List Char := "::".data

def anonHyphen : List Char := "`anonymous-namespace'::".data
def anonSpace : List Char := "`anonymous namespace'::".data

/-- Erase 23 characters at position p (`name->replace(pos, 23, "")`;
the literal 23 is hard-coded in the source for both patterns). -/
def eraseAt23 (cs : List Char) (p : Nat) : List Char :=
  cs.take p ++ cs.drop (p + 23)

/-- The name normalization performed inside PdbScanner::getName: delete the
first occurrence of the anonymous-namespace marker, trying the hyphen
spelling first, then the space spelling. -/
def normalizeChars (cs : List Char) : List Char :=
  match findSub anonHyphen cs with
  | some p => eraseAt23 cs p
  | none =>
      match findSub anonSpace cs with
      | some p => eraseAt23 cs p
      | none => cs

def normalizeName (s : String) : String :=
  String.mk (normalizeChars s.data)

/-- Split a name on "::" scanning left to right, matching the
find-loop of getNamespaceFromName (non-overlapping, leftmost first). -/
def splitSegsAux : List Char → List Char → List (List Char)
  | [], acc => [acc.reverse]
  | ':' :: ':' :: rest, acc => acc.reverse :: splitSegsAux rest []
  | c :: rest, acc => splitSegsAux rest (c :: acc)

def splitSegs (s : String) : List String :=
  (splitSegsAux s.data []).map String.mk

/-! ## DIA symbol model -/

/-- One `IDiaSymbol`.  Each accessor the scanner calls is a field; `none`
means the accessor fails (FAILED(hr)).  `children` is the sequence
findChildren(SymTagNull) would yield; `childrenOk` is false when
findChildren / get_Count / Next fails. -/
inductive Sym where
  | mk
      (tagVal : Option Nat)
      (rawName : Option String)
      (sizeVal : Option Nat)
      (childrenOk : Bool)
      (children : List Sym)
      (typeSym : Option Sym)
      (baseTypeVal : Option Nat)
      (locTypeVal : Option Nat)
      (offsetVal : Option Nat)
      (bitPosVal : Option Nat)
      (isRefVal : Option Bool)
      (arrCountVal : Option Nat)
      (udtKindVal : Option Nat)
      (constQ : Option Bool)
      (volQ : Option Bool)
      (unalQ : Option Bool)

def Sym.tagVal : Sym → Option Nat
  | Sym.mk t _ _ _ _ _ _ _ _ _ _ _ _ _ _ _ => t

def Sym.rawName : Sym → Option String
  | Sym.mk _ n _ _ _ _ _ _ _ _ _ _ _ _ _ _ => n

def Sym.sizeVal : Sym → Option Nat
  | Sym.mk _ _ s _ _ _ _ _ _ _ _ _ _ _ _ _ => s

def Sym.childrenOk : Sym → Bool
  | Sym.mk _ _ _ c _ _ _ _ _ _ _ _ _ _ _ _ => c

def Sym.children : Sym → List Sym
  | Sym.mk _ _ _ _ cs _ _ _ _ _ _ _ _ _ _ _ => cs

def Sym.typeSym : Sym → Option Sym
  | Sym.mk _ _ _ _ _ t _ _ _ _ _ _ _ _ _ _ => t

def Sym.baseTypeVal : Sym → Option Nat
  | Sym.mk _ _ _ _ _ _ b _ _ _ _ _ _ _ _ _ => b

def Sym.locTypeVal : Sym → Option Nat
  | Sym.mk _ _ _ _ _ _ _ l _ _ _ _ _ _ _ _ => l

def Sym.offsetVal : Sym → Option Nat
  | Sym.mk _ _ _ _ _ _ _ _ o _ _ _ _ _ _ _ => o

def Sym.bitPosVal : Sym → Option Nat
  | Sym.mk _ _ _ _ _ _ _ _ _ b _ _ _ _ _ _ => b

def Sym.isRefVal : Sym → Option Bool
  | Sym.mk _ _ _ _ _ _ _ _ _ _ r _ _ _ _ _ => r

def Sym.arrCountVal : Sym → Option Nat
  | Sym.mk _ _ _ _ _ _ _ _ _ _ _ a _ _ _ _ => a

def Sym.udtKindVal : Sym → Option Nat
  | Sym.mk _ _ _ _ _ _ _ _ _ _ _ _ u _ _ _ => u

def Sym.constQ : Sym → Option Bool
  | Sym.mk _ _ _ _ _ _ _ _ _ _ _ _ _ c _ _ => c

def Sym.volQ : Sym → Option Bool
  | Sym.mk _ _ _ _ _ _ _ _ _ _ _ _ _ _ v _ => v

def Sym.unalQ : Sym → Option Bool
  | Sym.mk _ _ _ _ _ _ _ _ _ _ _ _ _ _ _ u => u

/-- findChildren with a SymTag filter: SymTagNull yields every child,
any other tag yields the children carrying exactly that tag. -/
def Sym.findChildren (s : Sym) (tag : Nat) : List Sym :=
  match tag == symTagNull with
  | true => s.children
  | false =>
      s.children.filter (fun c =>
        match c.tagVal with
        | some t => t == tag
        | none => false)

/-- PdbScanner::getName - read the symbol name and delete the first
anonymous-namespace marker. -/
def getNameF (s : Sym) : Option String :=
  s.rawName.map normalizeName

/-- PdbScanner::getSize (get_length). -/
def getSizeF (s : Sym) : Option Nat :=
  s.sizeVal

/-! ## Registry (Type Registry component) -/

/-- PdbScanner::getUDTname / Type::getFullName: the owner-chain-qualified
name.  getUDTname is transcribed from src; Type::getFullName (declared in
a header outside src/) is modelled from the spec as the same
container-chain join, which getUDTname mirrors. -/
def fullNameAux : Nat → ScanState → Nat → String
  | 0, _, _ => ""
  | fuel + 1, st, idx =>
      let nd := nodeAt st idx
      match nd.outerNamespace with
      | none => nd.tname
      | some o => fullNameAux fuel st o ++ "::" ++ nd.tname

def fullName (st : ScanState) (idx : Nat) : String :=
  fullNameAux (st.arenaLen + 1) st idx

/-- PdbScanner::addType: register by full name if absent; push on the IR
root list only when addToIR. -/
def addType (st : ScanState) (idx : Nat) (addToIR : Bool) : ScanState :=
  let fn := fullName st idx
  match (!(fn == "")) && (mapFind st.typeMap fn).isNone with
  | true =>
      { st with
        irTypes :=
          match addToIR with
          | true => st.irTypes ++ [idx]
          | false => st.irTypes
        typeMap := mapAssign st.typeMap fn idx }
  | false => st

/-- PdbScanner::getType: map lookup by name, empty name never matches. -/
def getType (st : ScanState) (s : String) : Option Nat :=
  match s == "" with
  | false => mapFind st.typeMap s
  | true => none

/-- The fixed code→name base-type table (baseTypeArray). -/
def baseTypeArray : List String :=
  ["<NoType>", "void", "I8", "wchar_t", "I8", "U8", "I32", "U32", "float",
   "<BCD>", "bool", "short", "unsigned short", "I32", "U32", "I8", "I16",
   "I32", "I64", "__int128", "U8", "U16", "U32", "U64", "U128",
   "unsigned __int128", "<currency>", "<date>", "VARIANT", "<complex>",
   "<bit>", "BSTR", "HRESULT", "double"]

def errorNoType : String := "ERROR_PDBSCANNER_MISSING_THIS_TYPE"

/-- PdbScanner::initBaseTypeList: seed one node per table entry (plus the
error placeholder); map entries are assigned with overwrite, so a name
occurring several times in the table maps to its last node; every seeded
node is pushed on the IR root list. -/
def initBaseTypeList (st : ScanState) : ScanState :=
  (baseTypeArray ++ [errorNoType]).foldl
    (fun s nm =>
      match allocNode s { tag := TypeTag.base, tname := nm } with
      | (s1, idx) =>
          { s1 with
            typeMap := mapAssign s1.typeMap nm idx
            irTypes := s1.irTypes ++ [idx] })
    st

/-- Modelled from the spec: the blacklist collaborator
(checkBlacklistedType lives in the Scanner base class outside src/)
answers whether a type name is in the loaded exclusion set. -/
def checkBlacklistedType (st : ScanState) (n : String) : Bool :=
  st.blacklist.contains n

/-! ## Simple builders (no recursion through addSymbol) -/

/-- PdbScanner::setTypeModifier: accumulate const/volatile/unaligned. -/
def setTypeModifier (s : Sym) (m : Modifiers) : Modifiers × DDR_RC :=
  match s.constQ with
  | none => (m, DDR_RC.error)
  | some c =>
      let m1 :=
        match c with
        | true => { m with modifierFlags := m.modifierFlags ||| CONST_TYPE }
        | false => m
      match s.volQ with
      | none => (m1, DDR_RC.error)
      | some v =>
          let m2 :=
            match v with
            | true => { m1 with modifierFlags := m1.modifierFlags ||| VOLATILE_TYPE }
            | false => m1
          match s.unalQ with
          | none => (m2, DDR_RC.error)
          | some u =>
              let m3 :=
                match u with
                | true => { m2 with modifierFlags := m2.modifierFlags ||| UNALIGNED_TYPE }
                | false => m2
              (m3, DDR_RC.ok)

/-- PdbScanner::setPointerType: bump reference or pointer depth. -/
def setPointerType (s : Sym) (m : Modifiers) : Modifiers × DDR_RC :=
  match s.isRefVal with
  | none => (m, DDR_RC.error)
  | some true => ({ m with referenceCount := m.referenceCount + 1 }, DDR_RC.ok)
  | some false => ({ m with pointerCount := m.pointerCount + 1 }, DDR_RC.ok)

/-- PdbScanner::setBaseTypeInt: signed widths 1/2/4/8. -/
def setBaseTypeInt (st : ScanState) (len : Nat) (ty : Option Nat) : Option Nat × DDR_RC :=
  match len with
  | 1 => (getType st "I8", DDR_RC.ok)
  | 2 => (getType st "I16", DDR_RC.ok)
  | 4 => (getType st "I32", DDR_RC.ok)
  | 8 => (getType st "I64", DDR_RC.ok)
  | _ => (ty, DDR_RC.error)

/-- PdbScanner::setBaseTypeFloat: widths 4/8. -/
def setBaseTypeFloat (st : ScanState) (len : Nat) (ty : Option Nat) : Option Nat × DDR_RC :=
  match len with
  | 4 => (getType st "float", DDR_RC.ok)
  | 8 => (getType st "double", DDR_RC.ok)
  | _ => (ty, DDR_RC.error)

/-- PdbScanner::setBaseTypeUInt: unsigned widths 1/2/4/8/16. -/
def setBaseTypeUInt (st : ScanState) (len : Nat) (ty : Option Nat) : Option Nat × DDR_RC :=
  match len with
  | 1 => (getType st "U8", DDR_RC.ok)
  | 2 => (getType st "U16", DDR_RC.ok)
  | 4 => (getType st "U32", DDR_RC.ok)
  | 8 => (getType st "U64", DDR_RC.ok)
  | 16 => (getType st "U128", DDR_RC.ok)
  | _ => (ty, DDR_RC.error)

/-- PdbScanner::setBaseType: read base-type code and byte size; the three
int/uint/float codes dispatch on width, every other code goes straight
through the fixed table.  (An out-of-range code indexes past the C++
array - undefined behaviour; here it degrades to an empty-name lookup.) -/
def setBaseType (st : ScanState) (typeSymbol : Sym) (ty : Option Nat) : Option Nat × DDR_RC :=
  match typeSymbol.baseTypeVal with
  | none => (ty, DDR_RC.error)
  | some bt =>
      match getSizeF typeSymbol with
      | none => (ty, DDR_RC.error)
      | some len =>
          match bt == btUInt with
          | true => setBaseTypeUInt st len ty
          | false =>
              match bt == btInt with
              | true => setBaseTypeInt st len ty
              | false =>
                  match bt == btFloat with
                  | true => setBaseTypeFloat st len ty
                  | false => (getType st (baseTypeArray.getD bt ""), DDR_RC.ok)

/-- PdbScanner::setMemberOffset: location-kind dispatch for a field. -/
def setMemberOffset (s : Sym) (f : DField) : DField × DDR_RC :=
  match s.locTypeVal with
  | none => (f, DDR_RC.error)
  | some lt =>
      match lt == locIsThisRel with
      | true =>
          match s.offsetVal with
          | none => (f, DDR_RC.error)
          | some o => ({ f with offset := o }, DDR_RC.ok)
      | false =>
      match lt == locIsStatic with
      | true =>
          let f1 := { f with isStatic := true }
          match s.offsetVal with
          | none => ({ f1 with offset := 0 }, DDR_RC.ok)
          | some o => ({ f1 with offset := o }, DDR_RC.ok)
      | false =>
      match lt == locIsBitField with
      | true =>
          match s.offsetVal with
          | none => (f, DDR_RC.error)
          | some o =>
              match s.bitPosVal with
              | none => (f, DDR_RC.error)
              | some b => ({ f with offset := o, bitField := some b }, DDR_RC.ok)
      | false => (f, DDR_RC.error)

/-- PdbScanner::setSuperClassName: bind the superclass if its name is
registered, otherwise postpone; the overall result is always DDR_RC_OK
(the inner getName rc only guards the lookup). -/
def setSuperClassName (st : ScanState) (s : Sym) (udt : Nat) : ScanState × DDR_RC :=
  let st1 :=
    match getNameF s with
    | none => st
    | some n =>
        match n == "" with
        | false =>
            match mapFind st.typeMap n with
            | none => { st with postponed := st.postponed ++ [(Slot.superClass udt, n)] }
            | some t => writeSlot st (Slot.superClass udt) (some t)
        | true => st
  (st1, DDR_RC.ok)

/-- Namespace-resolver loop body of getNamespaceFromName: walk the
leading name segments, recalling or synthesizing a container for each;
a pre-existing ownerless container reached from a previous segment is
re-linked under it and dropped from the IR root list. -/
def nsLoop : ScanState → List String → Option Nat → Bool → ScanState × Option Nat
  | st, [], outerNS, _ => (st, outerNS)
  | st, seg :: rest, outerNS, isFirst =>
      match
        (match getType st seg with
         | some t => (st, t)
         | none =>
             match allocNode st { tag := TypeTag.cls, tname := seg, outerNamespace := outerNS } with
             | (st1, idx) => (addType st1 idx isFirst, idx)) with
      | (st1, ns) =>
          let st2 :=
            match outerNS.isSome && (nodeAt st1 ns).outerNamespace.isNone with
            | true =>
                let stA := modifyNode st1 ns (fun nd => { nd with outerNamespace := outerNS })
                let stB :=
                  match outerNS with
                  | some o => modifyNode stA o (fun nd => { nd with subUDTs := nd.subUDTs ++ [ns] })
                  | none => stA
                match stB.irTypes.contains ns with
                | true => { stB with irTypes := stB.irTypes.erase ns }
                | false => stB
            | false => st1
          nsLoop st2 rest (some ns) false

/-- PdbScanner::getNamespaceFromName: no-op when an owner is already
known; otherwise resolve the leading segments into a container chain and
strip them from the name. -/
def getNamespaceFromName (st : ScanState) (nm : String) (outerUDT : Option Nat) :
    ScanState × String × Option Nat :=
  match outerUDT with
  | some _ => (st, nm, outerUDT)
  | none =>
      match splitSegs nm with
      | segs =>
          match nsLoop st segs.dropLast none true with
          | (st1, ns) => (st1, segs.getLastD "", ns)

/-- Member loop of PdbScanner::addEnumMembers: append one EnumMember per
child in order, stopping (with the error) at the first unreadable name. -/
def enumMemberLoop : ScanState → Nat → List Sym → ScanState × DDR_RC
  | st, _, [] => (st, DDR_RC.ok)
  | st, udt, c :: rest =>
      match getNameF c with
      | none => (st, DDR_RC.error)
      | some n =>
          enumMemberLoop
            (modifyNode st udt (fun nd => { nd with enumMembers := nd.enumMembers ++ [n] }))
            udt rest

/-- PdbScanner::addEnumMembers. -/
def addEnumMembers (st : ScanState) (s : Sym) (udt : Nat) : ScanState × DDR_RC :=
  match s.childrenOk with
  | true => enumMemberLoop st udt (s.findChildren symTagNull)
  | false => (st, DDR_RC.error)

/-- One entry of the postponed-reference patch loop: bind the slot to the
registered type of that name, or to a fresh unregistered, unowned
placeholder ClassUDT carrying the name. -/
def patchOne (st : ScanState) (e : Slot × String) : ScanState :=
  match mapFind st.typeMap e.2 with
  | some t => writeSlot st e.1 (some t)
  | none =>
      match allocNode st { tag := TypeTag.cls, tname := e.2 } with
      | (st1, idx) => writeSlot st1 e.1 (some idx)

/-- PdbScanner::updatePostponedFieldNames: patch every postponed
reference in insertion order; always reports DDR_RC_OK. -/
def updatePostponedFieldNames (st : ScanState) : ScanState × DDR_RC :=
  (st.postponed.foldl patchOne st, DDR_RC.ok)

/-! ## Anonymous-type renamer -/

def unnamedTypeSub : List Char := "<unnamed-type-".data

def anonNameStr (k : Nat) : String :=
  "AnonymousType" ++ Nat.repr k

/-- Name test of renameAnonymousType. -/
def isAnonNamed (nd : TypeNode) : Bool :=
  hasSubStr nd.tname unnamedTypeSub || nd.tname = "<unnamed-tag>"

/-- An anonymous type gets a sequential synthetic name exactly when it
has no owner and no qualification separator in its name. -/
def isEligibleAnon (nd : TypeNode) : Bool :=
  isAnonNamed nd && nd.outerNamespace.isNone && !(hasSubStr nd.tname sepColons)

/-- Modelled from the spec: Type::getSubUDTS (header outside src/) yields
the nested-children list only for namespace-capable variants (ClassUDT /
NamespaceUDT); base types, enums and typedefs yield NULL. -/
def getSubUDTS (nd : TypeNode) : Option (List Nat) :=
  match nd.tag with
  | TypeTag.cls => some nd.subUDTs
  | _ => none

/-- The rename applied to one visited node (the body of
renameAnonymousType before the recursive descent); `type->getNamespace()`
is the owner-namespace back-reference (modelled from the spec, header
outside src/). -/
def renameStep (st : ScanState) (idx : Nat) (cnt : Nat) : ScanState × Nat :=
  let nd := nodeAt st idx
  match isAnonNamed nd with
  | true =>
      match nd.outerNamespace.isNone && ! hasSubStr nd.tname sepColons with
      | true => (modifyNode st idx (fun x => { x with tname := anonNameStr cnt }), cnt + 1)
      | false => (modifyNode st idx (fun x => { x with tname := "" }), cnt)
  | false => (st, cnt)

/-- Worklist form of renameAnonymousType(s): visit each node, rename it,
then descend into its sub-UDT list (depth-first, preorder - the same
visit sequence as the recursive C++ code, each visit mutating only the
visited node).  Also returns the visit order.  `none` = out of fuel. -/
def renameRunM : Nat → ScanState → List Nat → Nat → Option (ScanState × Nat × List Nat)
  | 0, _, _, _ => none
  | _ + 1, st, [], cnt => some (st, cnt, [])
  | fuel + 1, st, idx :: rest, cnt =>
      match renameStep st idx cnt with
      | (st1, cnt1) =>
          let work :=
            match getSubUDTS (nodeAt st1 idx) with
            | none => rest
            | some subs => subs ++ rest
          match renameRunM fuel st1 work cnt1 with
          | none => none
          | some (st2, cnt2, vs) => some (st2, cnt2, idx :: vs)

/-- PdbScanner::renameAnonymousTypes: shared counter starts at 0 and is
threaded through the whole pass over the IR root list. -/
def renameAnonymousTypesM (fuel : Nat) (st : ScanState) : Option (ScanState × List Nat) :=
  (renameRunM fuel st st.irTypes 0).map (fun out => (out.1, out.2.2))

/-- The get_type walk of createTypedef: skip Pointer/Array wrappers until
a UDT/Enum/BaseType/FunctionType symbol.  `none` models the C++ behaviour
on accessor failure inside the walk (the loop never terminates normally:
rc is set but the loop condition only tests the symTag). -/
def typedefWalk : Sym → Option Sym
  | Sym.mk _ _ _ _ _ ts _ _ _ _ _ _ _ _ _ _ =>
      match ts with
      | none => none
      | some t =>
          match t.tagVal with
          | none => none
          | some tg =>
              match (tg == symTagUDT) || (tg == symTagEnum) || (tg == symTagBaseType)
                  || (tg == symTagFunctionType) with
              | true => some t
              | false => typedefWalk t

/-! ## The mutually recursive builder family

addSymbol / addChildrenSymbols / createClassUDT / createEnumUDT /
createTypedef / addFieldMember / setType / setTypeUDT call each other
recursively; they are modelled as one interpreter `run` structurally
recursive on a fuel counter.  `childLoopC` is the first (direct-children)
loop of addChildrenSymbols and also records which children it hands to
addSymbol; `innerLoopC` is its second (deferred decorated-name) loop. -/

inductive Call where
  | addSymbolC (sym : Sym) (outer : Option Nat)
  | addChildrenC (sym : Sym) (filter : Nat) (outer : Option Nat)
  | childLoopC (children : List Sym) (outer : Option Nat) (checkedF : Bool) (hadF : Bool) (hadS : Bool)
  | innerLoopC (children : List Sym)
  | createClassC (sym : Sym) (outer : Option Nat)
  | createEnumC (sym : Sym) (outer : Option Nat)
  | createTypedefC (sym : Sym) (outer : Option Nat)
  | addFieldC (sym : Sym) (outer : Option Nat)
  | setTypeC (sym : Sym) (slot : Slot) (value : Option Nat) (m : Modifiers) (outer : Option Nat)
  | setTypeUDTC (tsym : Sym) (slot : Slot) (value : Option Nat) (outer : Option Nat)

/-- Result of one interpreted call: the scanner state and DDR_RC, plus the
extra outputs of the setType family (slot value, modifiers) and of the
child loop (deferred inner symbols, dispatched children). -/
structure RunOut where
  st : ScanState
  rc : DDR_RC
  value : Option Nat := none
  mods : Modifiers := {}
  inner : List Sym := []
  dispatched : List Sym := []

/-- Modelled from the spec: Type::getBaseType (header outside src/)
returns the aliased type for a TypedefUDT and NULL for every other
variant (the merge path follows it through typedef-alias chains). -/
def getBaseType (nd : TypeNode) : Option Nat :=
  match nd.tag with
  | TypeTag.tdef => nd.aliasedType
  | _ => none

/-- The while-loop of the createClassUDT merge branch: follow the
typedef-alias chain to the underlying type.  `none` only on an alias
cycle (where the C++ loops forever). -/
def chaseBaseType : Nat → ScanState → Nat → Option Nat
  | 0, _, _ => none
  | fuel + 1, st, i =>
      match getBaseType (nodeAt st i) with
      | none => some i
      | some j => chaseBaseType fuel st j

def stepAddSymbol (next : Call → ScanState → Option RunOut) (sym : Sym) (outer : Option Nat) (st : ScanState) : Option RunOut :=
  match sym.tagVal with
  | none => some { st := st, rc := DDR_RC.error }
  | some tg =>
      match tg == symTagEnum with
      | true => next (Call.createEnumC sym outer) st
      | false =>
      match tg == symTagUDT with
      | true => next (Call.createClassC sym outer) st
      | false =>
      match tg == symTagData with
      | true => next (Call.addFieldC sym outer) st
      | false =>
      match tg == symTagBaseClass with
      | true =>
          match outer with
          | none => none
          | some u =>
              match setSuperClassName st sym u with
              | (st1, rc1) => some { st := st1, rc := rc1 }
      | false =>
      match (tg == symTagVTableShape) || (tg == symTagVTable) || (tg == symTagFunction) with
      | true => some { st := st, rc := DDR_RC.ok }
      | false =>
      match tg == symTagTypedef with
      | true =>
          match outer with
          | none =>
              match next (Call.createTypedefC sym none) st with
              | none => none
              | some r => some { st := r.st, rc := DDR_RC.ok }
          | some _ => some { st := st, rc := DDR_RC.ok }
      | false => some { st := st, rc := DDR_RC.error }


def stepAddChildren (next : Call → ScanState → Option RunOut) (sym : Sym) (filter : Nat) (outer : Option Nat) (st : ScanState) : Option RunOut :=
  match sym.childrenOk with
  | true =>
      let hadS : Bool :=
        match outer with
        | some o => ! (nodeAt st o).subUDTs.isEmpty
        | none => false
      match next (Call.childLoopC (sym.findChildren filter) outer false false hadS) st with
      | none => none
      | some r =>
          match r.rc with
          | DDR_RC.ok =>
              match next (Call.innerLoopC r.inner) r.st with
              | none => none
              | some r2 => some { st := r2.st, rc := r2.rc, dispatched := r.dispatched }
          | DDR_RC.error => some { st := r.st, rc := DDR_RC.error, dispatched := r.dispatched }
  | false => some { st := st, rc := DDR_RC.error }


/-- Direct-children loop of addChildrenSymbols: an accessor failure on a
child (get_symTag, or getName for a class/enum child) breaks the loop
with the error, but the return code of the dispatched addSymbol call is
discarded - the loop carries on with the next child whatever the
builder reported, keeping only its state. -/
def stepChildLoop (next : Call → ScanState → Option RunOut) (children : List Sym) (outer : Option Nat) (checkedF : Bool) (hadF : Bool) (hadS : Bool) (st : ScanState) : Option RunOut :=
  match children with
  | [] => some { st := st, rc := DDR_RC.ok }
  | ch :: rest =>
      match ch.tagVal with
      | none => some { st := st, rc := DDR_RC.error }
      | some ctg =>
          let udtNameOpt : Option String :=
            match (ctg == symTagEnum) || (ctg == symTagUDT) with
            | true => getNameF ch
            | false => some ""
          match udtNameOpt with
          | none => some { st := st, rc := DDR_RC.error }
          | some udtName =>
              match outer.isNone || ! hasSubStr udtName sepColons with
              | true =>
                  let fl : Option (Bool × Bool) :=
                    match (! checkedF) && (ctg == symTagData) with
                    | true =>
                        match outer with
                        | none => none
                        | some o => some (true, ! (nodeAt st o).fieldMembers.isEmpty)
                    | false => some (checkedF, hadF)
                  match fl with
                  | none => none
                  | some cf =>
                      match ((ctg == symTagData) && ! cf.2) || ((! (ctg == symTagData)) && ! hadS) with
                      | true =>
                          match next (Call.addSymbolC ch outer) st with
                          | none => none
                          | some r =>
                              match next (Call.childLoopC rest outer cf.1 cf.2 hadS) r.st with
                              | none => none
                              | some r2 => some { r2 with dispatched := ch :: r2.dispatched }
                      | false => next (Call.childLoopC rest outer cf.1 cf.2 hadS) st
              | false =>
                  match next (Call.childLoopC rest outer checkedF hadF hadS) st with
                  | none => none
                  | some r2 => some { r2 with inner := ch :: r2.inner }


def stepInnerLoop (next : Call → ScanState → Option RunOut) (children : List Sym) (st : ScanState) : Option RunOut :=
  match children with
  | [] => some { st := st, rc := DDR_RC.ok }
  | ch :: rest =>
      match next (Call.addSymbolC ch none) st with
      | none => none
      | some r =>
          match r.rc with
          | DDR_RC.ok => next (Call.innerLoopC rest) r.st
          | DDR_RC.error => some { st := r.st, rc := r.rc }


def stepCreateClass (next : Call → ScanState → Option RunOut) (sym : Sym) (outer : Option Nat) (st : ScanState) : Option RunOut :=
  match sym.tagVal with
  | none => some { st := st, rc := DDR_RC.error }
  | some tg =>
      match tg == symTagUDT with
      | false => some { st := st, rc := DDR_RC.error }
      | true =>
        match getNameF sym with
        | none => some { st := st, rc := DDR_RC.error }
        | some name =>
            match checkBlacklistedType st name with
            | true => some { st := st, rc := DDR_RC.ok }
            | false =>
              match getSizeF sym with
              | none => some { st := st, rc := DDR_RC.error }
              | some size =>
                  let fullN :=
                    match outer with
                    | none => name
                    | some o => (nodeAt st o).tname ++ "::" ++ name
                  match (fullN == "") || (mapFind st.typeMap fullN).isNone
                      || (name == "<unnamed-tag>") with
                  | true =>
                    match getNamespaceFromName st name outer with
                    | (st1, name2, outer2) =>
                    match allocNode st1
                        { tag := TypeTag.cls, tname := name2, sizeOf := size, outerNamespace := outer2 } with
                    | (st2, idx) =>
                    let st3 :=
                      match outer2 with
                      | some o => modifyNode st2 o (fun x => { x with subUDTs := x.subUDTs ++ [idx] })
                      | none => st2
                    match next (Call.addChildrenC sym symTagNull (some idx)) st3 with
                    | none => none
                    | some r =>
                        match r.rc with
                        | DDR_RC.ok =>
                            some { st := addType r.st idx (nodeAt r.st idx).outerNamespace.isNone
                                   rc := DDR_RC.ok }
                        | DDR_RC.error => some { st := r.st, rc := DDR_RC.error }
                  | false =>
                    match getType st fullN with
                    | none => some { st := st, rc := DDR_RC.ok }
                    | some prev0 =>
                        match chaseBaseType (st.arenaLen + 1) st prev0 with
                        | none => none
                        | some cIdx =>
                            let st1 :=
                              match (nodeAt st cIdx).outerNamespace.isNone && outer.isSome with
                              | true =>
                                  let stA := modifyNode st cIdx
                                    (fun x => { x with outerNamespace := outer })
                                  match outer with
                                  | some o => modifyNode stA o
                                      (fun x => { x with subUDTs := x.subUDTs ++ [cIdx] })
                                  | none => stA
                              | false => st
                            next (Call.addChildrenC sym symTagNull (some cIdx)) st1


def stepCreateEnum (next : Call → ScanState → Option RunOut) (sym : Sym) (outer : Option Nat) (st : ScanState) : Option RunOut :=
  match sym.tagVal with
  | none => some { st := st, rc := DDR_RC.error }
  | some tg =>
      match tg == symTagEnum with
      | false => some { st := st, rc := DDR_RC.error }
      | true =>
        match getNameF sym with
        | none => some { st := st, rc := DDR_RC.error }
        | some name =>
            match checkBlacklistedType st name with
            | true => some { st := st, rc := DDR_RC.ok }
            | false =>
              match getSizeF sym with
              | none => some { st := st, rc := DDR_RC.error }
              | some _size =>
                  let fullN :=
                    match outer with
                    | none => name
                    | some o => (nodeAt st o).tname ++ "::" ++ name
                  match (fullN == "") || (mapFind st.typeMap fullN).isNone
                      || (name == "<unnamed-tag>") with
                  | true =>
                    match getNamespaceFromName st name outer with
                    | (st1, name2, outer2) =>
                    match allocNode st1 { tag := TypeTag.enum, tname := name2 } with
                    | (st2, idx) =>
                    match addEnumMembers st2 sym idx with
                    | (stE, rcE) =>
                    match rcE with
                    | DDR_RC.ok =>
                        let st3 := modifyNode stE idx (fun x => { x with outerNamespace := outer2 })
                        let st4 :=
                          match outer2 with
                          | some o => modifyNode st3 o
                              (fun x => { x with subUDTs := x.subUDTs ++ [idx] })
                          | none => st3
                        some { st := addType st4 idx outer2.isNone, rc := DDR_RC.ok }
                    | DDR_RC.error => some { st := stE, rc := DDR_RC.error }
                  | false =>
                    match getType st fullN with
                    | none => some { st := st, rc := DDR_RC.ok }
                    | some eIdx =>
                        let st1 :=
                          match (nodeAt st eIdx).outerNamespace.isNone && outer.isSome with
                          | true =>
                              let stA := modifyNode st eIdx
                                (fun x => { x with outerNamespace := outer })
                              match outer with
                              | some o => modifyNode stA o
                                  (fun x => { x with subUDTs := x.subUDTs ++ [eIdx] })
                              | none => stA
                          | false => st
                        match (nodeAt st1 eIdx).enumMembers.isEmpty with
                        | true =>
                            match addEnumMembers st1 sym eIdx with
                            | (stE, rcE) => some { st := stE, rc := rcE }
                        | false => some { st := st1, rc := DDR_RC.ok }


def stepCreateTypedef (next : Call → ScanState → Option RunOut) (sym : Sym) (outer : Option Nat) (st : ScanState) : Option RunOut :=
  match getNameF sym with
  | none => some { st := st, rc := DDR_RC.error }
  | some typedefName =>
      match checkBlacklistedType st typedefName with
      | true => some { st := st, rc := DDR_RC.ok }
      | false =>
        match typedefWalk sym with
        | none => none
        | some baseSymbol =>
            let baseNameOpt : Option String :=
              match baseSymbol.tagVal with
              | some btg =>
                  match (btg == symTagUDT) || (btg == symTagEnum) with
                  | true => getNameF baseSymbol
                  | false => some ""
              | none => some ""
            match baseNameOpt with
            | none => some { st := st, rc := DDR_RC.error }
            | some baseName =>
                match checkBlacklistedType st baseName with
                | true => some { st := st, rc := DDR_RC.ok }
                | false =>
                  match allocNode st
                      { tag := TypeTag.tdef, tname := typedefName, outerNamespace := outer } with
                  | (st1, idx) =>
                  let st2 :=
                    match outer with
                    | some o => modifyNode st1 o
                        (fun x => { x with subUDTs := x.subUDTs ++ [idx] })
                    | none => st1
                  match next (Call.setTypeC sym (Slot.aliasedType idx) none {} none) st2 with
                  | none => none
                  | some r =>
                      match r.rc with
                      | DDR_RC.ok =>
                          let stV := writeSlot r.st (Slot.aliasedType idx) r.value
                          let stM := modifyNode stV idx (fun x => { x with tmodifiers := r.mods })
                          match r.value with
                          | none => none
                          | some a =>
                              let stS := modifyNode stM idx
                                (fun x => { x with sizeOf := (nodeAt stM a).sizeOf })
                              some { st := addType stS idx outer.isNone, rc := DDR_RC.ok }
                      | DDR_RC.error => some { st := r.st, rc := DDR_RC.error }


def stepAddField (next : Call → ScanState → Option RunOut) (sym : Sym) (outer : Option Nat) (st : ScanState) : Option RunOut :=
  match outer with
  | none => none
  | some u =>
      match getNameF sym with
      | none => some { st := st, rc := DDR_RC.error }
      | some nm =>
          match setMemberOffset sym { fname := nm } with
          | (fd1, rcO) =>
          match rcO with
          | DDR_RC.error => some { st := st, rc := DDR_RC.error }
          | DDR_RC.ok =>
            let slot := Slot.fieldType u (nodeAt st u).fieldMembers.length
            match next (Call.setTypeC sym slot none fd1.fmodifiers (some u)) st with
            | none => none
            | some r =>
                match r.rc with
                | DDR_RC.ok =>
                  let fd := { fd1 with fieldType := r.value, fmodifiers := r.mods }
                  some { st := modifyNode r.st u
                           (fun x => { x with fieldMembers := x.fieldMembers ++ [fd] })
                         rc := DDR_RC.ok }
                | DDR_RC.error => some { st := r.st, rc := DDR_RC.error }


def stepSetType (next : Call → ScanState → Option RunOut) (sym : Sym) (slot : Slot) (value : Option Nat) (m : Modifiers) (outer : Option Nat) (st : ScanState) : Option RunOut :=
  match sym.typeSym with
  | none => some { st := st, rc := DDR_RC.error, value := value, mods := m }
  | some typeSymbol =>
      match setTypeModifier typeSymbol m with
      | (m1, rcM) =>
      match rcM with
      | DDR_RC.error =>
        some { st := st, rc := DDR_RC.error, value := value, mods := m1 }
      | DDR_RC.ok =>
        match typeSymbol.tagVal with
        | none => some { st := st, rc := DDR_RC.error, value := value, mods := m1 }
        | some ttg =>
            match (ttg == symTagEnum) || (ttg == symTagUDT) with
            | true =>
              match next (Call.setTypeUDTC typeSymbol slot value outer) st with
              | none => none
              | some r => some { r with mods := m1 }
            | false =>
            match ttg == symTagArrayType with
            | true =>
              match typeSymbol.arrCountVal with
              | none => some { st := st, rc := DDR_RC.error, value := value, mods := m1 }
              | some n =>
                  next (Call.setTypeC typeSymbol slot value (m1.addArrayDimension n) outer) st
            | false =>
            match ttg == symTagPointerType with
            | true =>
              match setPointerType sym m1 with
              | (m2, rcP) =>
              match rcP with
              | DDR_RC.error =>
                some { st := st, rc := DDR_RC.error, value := value, mods := m2 }
              | DDR_RC.ok => next (Call.setTypeC typeSymbol slot value m2 outer) st
            | false =>
            match ttg == symTagBaseType with
            | true =>
              match setBaseType st typeSymbol value with
              | (v2, rcB) => some { st := st, rc := rcB, value := v2, mods := m1 }
            | false =>
            match ttg == symTagFunctionType with
            | true =>
              some { st := st, rc := DDR_RC.ok, value := getType st "void", mods := m1 }
            | false => some { st := st, rc := DDR_RC.error, value := value, mods := m1 }


def stepSetTypeUDT (next : Call → ScanState → Option RunOut) (tsym : Sym) (slot : Slot) (value : Option Nat) (outer : Option Nat) (st : ScanState) : Option RunOut :=
  match tsym.udtKindVal with
  | none => some { st := st, rc := DDR_RC.error, value := value }
  | some _ =>
      match getNameF tsym with
      | none => some { st := st, rc := DDR_RC.error, value := value }
      | some name =>
          match (! (name == "")) && (mapFind st.typeMap name).isSome with
          | true =>
            some { st := st, rc := DDR_RC.ok, value := mapFind st.typeMap name }
          | false =>
          match (name == "<unnamed-tag>") && outer.isSome with
          | true =>
            match next (Call.createClassC tsym outer) st with
            | none => none
            | some r =>
                match r.rc with
                | DDR_RC.ok =>
                  match outer with
                  | none => none
                  | some o =>
                      match (nodeAt r.st o).subUDTs.getLast? with
                      | none => none
                      | some newIdx =>
                          some { st := modifyNode r.st newIdx (fun x => { x with tname := "" })
                                 rc := DDR_RC.ok
                                 value := some newIdx }
                | DDR_RC.error => some { st := r.st, rc := DDR_RC.error, value := value }
          | false =>
          match name == "" with
          | false =>
            some { st := { st with postponed := st.postponed ++ [(slot, name)] }
                   rc := DDR_RC.ok
                   value := value }
          | true => some { st := st, rc := DDR_RC.ok, value := value }

/-- One step of the interpreter: dispatch to the per-function step
bodies, passing the next fuel level as the recursive continuation.  A
`none` result means the C++ does not return normally from this call
(NULL dereference, an accessor-failure loop that never exits, or out of
fuel). -/
def run (fuel : Nat) : Call → ScanState → Option RunOut :=
  match fuel with
  | 0 => fun _ _ => none
  | f + 1 => fun c =>
      match c with
      | Call.addSymbolC sym outer => stepAddSymbol (run f) sym outer
      | Call.addChildrenC sym filter outer => stepAddChildren (run f) sym filter outer
      | Call.childLoopC children outer checkedF hadF hadS => stepChildLoop (run f) children outer checkedF hadF hadS
      | Call.innerLoopC children => stepInnerLoop (run f) children
      | Call.createClassC sym outer => stepCreateClass (run f) sym outer
      | Call.createEnumC sym outer => stepCreateEnum (run f) sym outer
      | Call.createTypedefC sym outer => stepCreateTypedef (run f) sym outer
      | Call.addFieldC sym outer => stepAddField (run f) sym outer
      | Call.setTypeC sym slot value m outer => stepSetType (run f) sym slot value m outer
      | Call.setTypeUDTC tsym slot value outer => stepSetTypeUDT (run f) tsym slot value outer

/-- PdbScanner::addSymbol. -/
def addSymbolM (fuel : Nat) (st : ScanState) (sym : Sym) (outer : Option Nat) : Option RunOut :=
  run fuel (Call.addSymbolC sym outer) st

/-- PdbScanner::addChildrenSymbols. -/
def addChildrenSymbolsM (fuel : Nat) (st : ScanState) (sym : Sym) (filter : Nat)
    (outer : Option Nat) : Option RunOut :=
  run fuel (Call.addChildrenC sym filter outer) st

/-- PdbScanner::createClassUDT. -/
def createClassUDTM (fuel : Nat) (st : ScanState) (sym : Sym) (outer : Option Nat) : Option RunOut :=
  run fuel (Call.createClassC sym outer) st

/-- PdbScanner::createEnumUDT. -/
def createEnumUDTM (fuel : Nat) (st : ScanState) (sym : Sym) (outer : Option Nat) : Option RunOut :=
  run fuel (Call.createEnumC sym outer) st

/-- PdbScanner::createTypedef. -/
def createTypedefM (fuel : Nat) (st : ScanState) (sym : Sym) (outer : Option Nat) : Option RunOut :=
  run fuel (Call.createTypedefC sym outer) st

/-- PdbScanner::addFieldMember. -/
def addFieldMemberM (fuel : Nat) (st : ScanState) (sym : Sym) (outer : Option Nat) : Option RunOut :=
  run fuel (Call.addFieldC sym outer) st

/-- PdbScanner::setType. -/
def setTypeM (fuel : Nat) (st : ScanState) (sym : Sym) (slot : Slot) (value : Option Nat)
    (m : Modifiers) (outer : Option Nat) : Option RunOut :=
  run fuel (Call.setTypeC sym slot value m outer) st

/-! ## Top-level scan driver (startScan) -/

/-- The three per-source COM handles of the startScan loop body:
`IDiaDataSource *diaDataSource`, `IDiaSession *diaSession` and the
global scope `IDiaSymbol *diaSymbol`. -/
inductive PdbHandle where
  | dataSource
  | session
  | globalSymbol
deriving DecidableEq, Repr

/-- Which of the three per-source handle pointers are non-NULL. -/
structure Handles where
  dataSource : Bool := false
  session : Bool := false
  globalSymbol : Bool := false
deriving DecidableEq, Repr

/-- The handles a Handles value holds (its non-NULL pointers). -/
def acquiredHandles (h : Handles) : List PdbHandle :=
  (match h.dataSource with | true => [PdbHandle.dataSource] | false => []) ++
    (match h.session with | true => [PdbHandle.session] | false => []) ++
      (match h.globalSymbol with | true => [PdbHandle.globalSymbol] | false => [])

/-- The unconditional release block at the end of each startScan loop
iteration: each non-NULL handle is Released and the pointer set back to
NULL, in source order (dataSource, session, symbol).  Returns the
pointer state after the block and the handles that were Released. -/
def releaseBlock (h : Handles) : Handles × List PdbHandle :=
  match
    (match h.dataSource with
     | true => ({ h with dataSource := false }, [PdbHandle.dataSource])
     | false => (h, [])) with
  | (h1, r1) =>
  match
    (match h1.session with
     | true => ({ h1 with session := false }, [PdbHandle.session])
     | false => (h1, [])) with
  | (h2, r2) =>
  match
    (match h2.globalSymbol with
     | true => ({ h2 with globalSymbol := false }, [PdbHandle.globalSymbol])
     | false => (h2, [])) with
  | (h3, r3) => (h3, r1 ++ r2 ++ r3)

/-- One input PDB: the outcome of each step of
PdbScanner::loadDataFromPdb (CoCreateInstance / DiaSource fallback,
loadDataFromPdb, openSession, get_globalScope), and the global scope
symbol. -/
structure Source where
  createOk : Bool
  loadOk : Bool
  sessionOk : Bool
  globalOk : Bool
  global : Sym

/-- PdbScanner::loadDataFromPdb: the staged open sequence.  Each stage
runs only while rc is OK; creating the DiaSource instance sets the
dataSource pointer, openSession the session pointer and get_globalScope
the symbol pointer, so a failure part-way leaves the earlier handles
acquired. -/
def loadDataFromPdbM (src : Source) : Handles × DDR_RC :=
  match src.createOk with
  | false => ({}, DDR_RC.error)
  | true =>
      match src.loadOk with
      | false => ({ dataSource := true }, DDR_RC.error)
      | true =>
          match src.sessionOk with
          | false => ({ dataSource := true }, DDR_RC.error)
          | true =>
              match src.globalOk with
              | false => ({ dataSource := true, session := true }, DDR_RC.error)
              | true =>
                  ({ dataSource := true, session := true, globalSymbol := true }, DDR_RC.ok)

/-- One iteration of the startScan batch loop: load the source, run the
three enumeration passes (UDT, Enum, Typedef) while rc stays OK, then
run the release block - it sits before the `break`, so it runs on the
failing paths too.  Returns the updated state, the iteration rc, the
handles the load phase left non-NULL, and the handles the release block
Released. -/
def processSourceM (fuel : Nat) (st : ScanState) (src : Source) :
    Option (ScanState × DDR_RC × Handles × List PdbHandle) :=
  match loadDataFromPdbM src with
  | (h, rcL) =>
  match rcL with
  | DDR_RC.ok =>
    match run fuel (Call.addChildrenC src.global symTagUDT none) st with
    | none => none
    | some r1 =>
        match r1.rc with
        | DDR_RC.ok =>
          match run fuel (Call.addChildrenC src.global symTagEnum none) r1.st with
          | none => none
          | some r2 =>
              match r2.rc with
              | DDR_RC.ok =>
                match run fuel (Call.addChildrenC src.global symTagTypedef none) r2.st with
                | none => none
                | some r3 => some (r3.st, r3.rc, h, (releaseBlock h).2)
              | DDR_RC.error => some (r2.st, DDR_RC.error, h, (releaseBlock h).2)
        | DDR_RC.error => some (r1.st, DDR_RC.error, h, (releaseBlock h).2)
  | DDR_RC.error => some (st, DDR_RC.error, h, (releaseBlock h).2)

/-- The batch loop of startScan: sources are processed in order; the loop
breaks after the first iteration whose rc is not OK.  Returns the final
state, the rc, how many sources were attempted, and the per-attempted
source handle trace (load-phase handles, released handles). -/
def scanLoopM (fuel : Nat) : ScanState → List Source → Option (ScanState × DDR_RC × Nat × List (Handles × List PdbHandle))
  | st, [] => some (st, DDR_RC.ok, 0, [])
  | st, s :: rest =>
      match processSourceM fuel st s with
      | none => none
      | some (st1, rc, acq, rel) =>
          match rc with
          | DDR_RC.ok =>
            (scanLoopM fuel st1 rest).map
              (fun out => (out.1, out.2.1, out.2.2.1 + 1, (acq, rel) :: out.2.2.2))
          | DDR_RC.error => some (st1, rc, 1, [(acq, rel)])

/-- PdbScanner::startScan: seed the base types, run the batch loop, and
when it succeeds run the postponed-reference patcher exactly once
followed by the anonymous-type renamer. -/
def startScanM (fuel : Nat) (bl : List String) (sources : List Source) :
    Option (ScanState × DDR_RC × Nat × List (Handles × List PdbHandle)) :=
  let st0 := initBaseTypeList { blacklist := bl }
  match scanLoopM fuel st0 sources with
  | none => none
  | some (st1, rc, n, tr) =>
      match rc with
      | DDR_RC.ok =>
        match updatePostponedFieldNames st1 with
        | (stP, rcP) =>
        match rcP with
        | DDR_RC.ok =>
          match renameAnonymousTypesM fuel stP with
          | none => none
          | some (stR, _) => some (stR, DDR_RC.ok, n, tr)
        | DDR_RC.error => some (stP, rcP, n, tr)
      | DDR_RC.error => some (st1, rc, n, tr)

/-! ## Concrete symbol constructors for the scenarios -/

/-- Global-scope symbol holding the listed top-level declarations. -/
@[reducible] def globalSym (children : List Sym) : Sym :=
  Sym.mk (some symTagNull) none none true children none none none none none none none none
    (some false) (some false) (some false)

/-- A class/struct/union declaration symbol. -/
@[reducible] def udtSym (nm : String) (size : Nat) (children : List Sym) : Sym :=
  Sym.mk (some symTagUDT) (some nm) (some size) true children none none none none none none none
    (some 0) (some false) (some false) (some false)

/-- A named UDT symbol used as the referenced type of a field or typedef. -/
@[reducible] def udtRefSym (nm : String) : Sym :=
  Sym.mk (some symTagUDT) (some nm) (some 0) true [] none none none none none none none
    (some 0) (some false) (some false) (some false)

/-- A base-type symbol (referenced type) with the given code and size. -/
@[reducible] def baseTypeSym (code : Nat) (size : Nat) : Sym :=
  Sym.mk (some symTagBaseType) none (some size) true [] none (some code) none none none none none
    none (some false) (some false) (some false)

/-- A this-relative data-member declaration whose type is tySym. -/
@[reducible] def dataSym (nm : String) (off : Nat) (tySym : Sym) : Sym :=
  Sym.mk (some symTagData) (some nm) none true [] (some tySym) none (some locIsThisRel) (some off)
    none none none none (some false) (some false) (some false)

/-- A typedef declaration aliasing the type described by target. -/
@[reducible] def typedefSym (nm : String) (target : Sym) : Sym :=
  Sym.mk (some symTagTypedef) (some nm) none true [] (some target) none none none none none none
    none (some false) (some false) (some false)

/-- A typedef declaration whose get_name accessor fails. -/
@[reducible] def typedefBadNameSym : Sym :=
  Sym.mk (some symTagTypedef) none none true [] none none none none none none none none
    (some false) (some false) (some false)

/-- The seeded scanner state (initBaseTypeList over an empty state). -/
def initState : ScanState :=
  initBaseTypeList {}

/-- Fallback RunOut used to project optional results in closed statements. -/
def runOutD : RunOut :=
  { st := {}, rc := DDR_RC.error }

/-! ## Concrete scan scenarios used by the claims -/

/-- C1 scenario: a declaration of a single UDT named Outer::Inner::Leaf
handed to createClassUDT on an empty state (no previously-known Outer or
Inner). -/
@[reducible] def c1sym : Sym :=
  udtSym "Outer::Inner::Leaf" 4 []

def resC1 : Option RunOut :=
  createClassUDTM 9 {} c1sym none

/-- Final state of the C1 construction (it succeeds, see the theorems). -/
def stC1 : ScanState :=
  match resC1 with
  | some r => r.st
  | none => {}

/-- C2 scenario: a source declaring N::Foo with a data member and a
nested type; the batch loop scans the same source twice. -/
@[reducible] def quxSym : Sym :=
  udtRefSym "Qux"

@[reducible] def xSym : Sym :=
  dataSym "x" 0 quxSym

@[reducible] def barSym : Sym :=
  udtSym "Bar" 4 []

@[reducible] def fooSym : Sym :=
  udtSym "N::Foo" 8 [xSym, barSym]

@[reducible] def gFoo : Sym :=
  globalSym [fooSym]

@[reducible] def srcFoo : Source :=
  { createOk := true, loadOk := true, sessionOk := true, globalOk := true, global := gFoo }

def resC2 : Option (ScanState × DDR_RC × Nat × List (Handles × List PdbHandle)) :=
  scanLoopM 13 {} [srcFoo, srcFoo]

def stC2 : ScanState :=
  match resC2 with
  | some r => r.1
  | none => {}

/-! States reached by the N::Foo construction, written out so that each
interpreter call of the C2 scan can be settled on explicit data: after
the namespace resolver ran (stC2n), at the child-symbol pass of the
fresh Foo node (stC2a), after the x field (stC2b), after the nested Bar
(stC2c), and after Foo's own registration (stC2d, the state the whole
first source leaves behind). -/

@[reducible] def stC2a : ScanState :=
  { arena := [
      { tag := TypeTag.cls, tname := "N", subUDTs := [1] },
      { tag := TypeTag.cls, tname := "Foo", sizeOf := 8, outerNamespace := some 0 }]
    arenaLen := 2, typeMap := [("N", 0)], irTypes := [0] }

@[reducible] def stC2b : ScanState :=
  { arena := [
      { tag := TypeTag.cls, tname := "N", subUDTs := [1] },
      { tag := TypeTag.cls, tname := "Foo", sizeOf := 8, outerNamespace := some 0,
        fieldMembers := [{ fname := "x" }] }]
    arenaLen := 2, typeMap := [("N", 0)], irTypes := [0]
    postponed := [(Slot.fieldType 1 0, "Qux")] }

@[reducible] def stC2c : ScanState :=
  { arena := [
      { tag := TypeTag.cls, tname := "N", subUDTs := [1] },
      { tag := TypeTag.cls, tname := "Foo", sizeOf := 8, outerNamespace := some 0, subUDTs := [2],
        fieldMembers := [{ fname := "x" }] },
      { tag := TypeTag.cls, tname := "Bar", sizeOf := 4, outerNamespace := some 1 }]
    arenaLen := 3, typeMap := [("N", 0), ("N::Foo::Bar", 2)], irTypes := [0]
    postponed := [(Slot.fieldType 1 0, "Qux")] }

@[reducible] def stC2d : ScanState :=
  { arena := [
      { tag := TypeTag.cls, tname := "N", subUDTs := [1] },
      { tag := TypeTag.cls, tname := "Foo", sizeOf := 8, outerNamespace := some 0, subUDTs := [2],
        fieldMembers := [{ fname := "x" }] },
      { tag := TypeTag.cls, tname := "Bar", sizeOf := 4, outerNamespace := some 1 }]
    arenaLen := 3, typeMap := [("N", 0), ("N::Foo::Bar", 2), ("N::Foo", 1)], irTypes := [0]
    postponed := [(Slot.fieldType 1 0, "Qux")] }


@[reducible] def stC2n : ScanState :=
  { arena := [{ tag := TypeTag.cls, tname := "N" }]
    arenaLen := 1, typeMap := [("N", 0)], irTypes := [0] }


/-- C3 scenario: three sources, the second fails to open. -/
@[reducible] def aSym : Sym :=
  udtSym "A" 4 []

@[reducible] def gA : Sym :=
  globalSym [aSym]

@[reducible] def srcA : Source :=
  { createOk := true, loadOk := true, sessionOk := true, globalOk := true, global := gA }

/-- The second source: the DiaSource instance is created but
loadDataFromPdb fails on the file, so only the dataSource handle is
non-NULL when the iteration gives up. -/
@[reducible] def srcBad : Source :=
  { createOk := true, loadOk := false, sessionOk := true, globalOk := true, global := globalSym [] }

@[reducible] def srcCc : Source :=
  { createOk := true, loadOk := true, sessionOk := true, globalOk := true,
    global := globalSym [udtSym "C" 4 []] }

def resC3 : Option (ScanState × DDR_RC × Nat × List (Handles × List PdbHandle)) :=
  scanLoopM 13 {} [srcA, srcBad, srcCc]

/-- All three per-source handles, as the load phase leaves them on a
source that opens, and as the release block then releases them. -/
@[reducible] def allHandles : Handles :=
  { dataSource := true, session := true, globalSymbol := true }

@[reducible] def allReleased : List PdbHandle :=
  [PdbHandle.dataSource, PdbHandle.session, PdbHandle.globalSymbol]

/-- C3 counterexample scenario: a source whose single top-level UDT has
an unreadable size (get_length fails), so createClassUDT - and with it
addSymbol - report DDR_RC_ERROR for that declaration, followed by the
well-formed A source. -/
@[reducible] def brokenSym : Sym :=
  Sym.mk (some symTagUDT) (some "Broken") none true [] none none none none none none none
    (some 0) (some false) (some false) (some false)

@[reducible] def gBroken : Sym :=
  globalSym [brokenSym]

@[reducible] def srcBroken : Source :=
  { createOk := true, loadOk := true, sessionOk := true, globalOk := true, global := gBroken }

def resC3swallow : Option (ScanState × DDR_RC × Nat × List (Handles × List PdbHandle)) :=
  scanLoopM 13 {} [srcBroken, srcA]

/-- State after the first C3 source, and the final state of the C1
construction, written out for the evaluation theorems. -/
@[reducible] def stC3a : ScanState :=
  { arena := [{ tag := TypeTag.cls, tname := "A", sizeOf := 4 }]
    arenaLen := 1, typeMap := [("A", 0)], irTypes := [0] }

@[reducible] def stC1d : ScanState :=
  { arena := [
      { tag := TypeTag.cls, tname := "Outer" },
      { tag := TypeTag.cls, tname := "Inner", outerNamespace := some 0, subUDTs := [2] },
      { tag := TypeTag.cls, tname := "Leaf", sizeOf := 4, outerNamespace := some 1 }]
    arenaLen := 3
    typeMap := [("Outer", 0), ("Outer::Inner", 1), ("Outer::Inner::Leaf", 2)]
    irTypes := [0] }


/-- C4 scenario: the end-of-scan state of a Holder class whose field p
referenced Later (declared afterwards, so postponed but now registered)
and whose field q referenced Never (never declared by any source). -/
def stPatch : ScanState :=
  { arena := [
      { tag := TypeTag.cls, tname := "Holder"
        fieldMembers := [{ fname := "p" }, { fname := "q" }] },
      { tag := TypeTag.cls, tname := "Later", sizeOf := 4 }]
    arenaLen := 2
    typeMap := [("Holder", 0), ("Later", 1)]
    irTypes := [0, 1]
    postponed := [(Slot.fieldType 0 0, "Later"), (Slot.fieldType 0 1, "Never")] }

def stPatched : ScanState :=
  (updatePostponedFieldNames stPatch).1

/-- C5 witness state: two eligible anonymous root types around a named
host with a nested anonymous child. -/
def wStC5 : ScanState :=
  { arena := [
      { tag := TypeTag.cls, tname := "<unnamed-tag>" },
      { tag := TypeTag.cls, tname := "Host", subUDTs := [2] },
      { tag := TypeTag.cls, tname := "<unnamed-tag>", outerNamespace := some 1 },
      { tag := TypeTag.cls, tname := "<unnamed-type-x>" }]
    arenaLen := 4
    irTypes := [0, 1, 3] }

/-- C9 failing input: a typedef aliasing a class Foo that is not yet
registered (and not blacklisted). -/
@[reducible] def tdC9 : Sym :=
  typedefSym "MyTd" (udtRefSym "Foo")


/-! ## Unfolding lemmas for the interpreter and string leaves

One unconditional unfolding lemma per entry point of the mutually
recursive builder family, plus closed evaluations of the string
helpers on the names the scenarios use.  These drive the symbolic
evaluation of the concrete scans in the claim proofs. -/

theorem run_addSymbol (fuel : Nat) (sym : Sym) (outer : Option Nat) (st : ScanState) :
    run fuel (Call.addSymbolC sym outer) st =
      if fuel = 0 then none else stepAddSymbol (run (fuel - 1)) sym outer st := by
  cases fuel <;> rfl

theorem run_addChildren (fuel : Nat) (sym : Sym) (filter : Nat) (outer : Option Nat) (st : ScanState) :
    run fuel (Call.addChildrenC sym filter outer) st =
      if fuel = 0 then none else stepAddChildren (run (fuel - 1)) sym filter outer st := by
  cases fuel <;> rfl

theorem run_childLoop (fuel : Nat) (children : List Sym) (outer : Option Nat)
    (checkedF hadF hadS : Bool) (st : ScanState) :
    run fuel (Call.childLoopC children outer checkedF hadF hadS) st =
      if fuel = 0 then none else stepChildLoop (run (fuel - 1)) children outer checkedF hadF hadS st := by
  cases fuel <;> rfl

theorem run_innerLoop (fuel : Nat) (children : List Sym) (st : ScanState) :
    run fuel (Call.innerLoopC children) st =
      if fuel = 0 then none else stepInnerLoop (run (fuel - 1)) children st := by
  cases fuel <;> rfl

theorem run_createClass (fuel : Nat) (sym : Sym) (outer : Option Nat) (st : ScanState) :
    run fuel (Call.createClassC sym outer) st =
      if fuel = 0 then none else stepCreateClass (run (fuel - 1)) sym outer st := by
  cases fuel <;> rfl

theorem run_createEnum (fuel : Nat) (sym : Sym) (outer : Option Nat) (st : ScanState) :
    run fuel (Call.createEnumC sym outer) st =
      if fuel = 0 then none else stepCreateEnum (run (fuel - 1)) sym outer st := by
  cases fuel <;> rfl

theorem run_createTypedef (fuel : Nat) (sym : Sym) (outer : Option Nat) (st : ScanState) :
    run fuel (Call.createTypedefC sym outer) st =
      if fuel = 0 then none else stepCreateTypedef (run (fuel - 1)) sym outer st := by
  cases fuel <;> rfl

theorem run_addField (fuel : Nat) (sym : Sym) (outer : Option Nat) (st : ScanState) :
    run fuel (Call.addFieldC sym outer) st =
      if fuel = 0 then none else stepAddField (run (fuel - 1)) sym outer st := by
  cases fuel <;> rfl

theorem run_setType (fuel : Nat) (sym : Sym) (slot : Slot) (value : Option Nat) (m : Modifiers)
    (outer : Option Nat) (st : ScanState) :
    run fuel (Call.setTypeC sym slot value m outer) st =
      if fuel = 0 then none else stepSetType (run (fuel - 1)) sym slot value m outer st := by
  cases fuel <;> rfl

theorem run_setTypeUDT (fuel : Nat) (tsym : Sym) (slot : Slot) (value : Option Nat)
    (outer : Option Nat) (st : ScanState) :
    run fuel (Call.setTypeUDTC tsym slot value outer) st =
      if fuel = 0 then none else stepSetTypeUDT (run (fuel - 1)) tsym slot value outer st := by
  cases fuel <;> rfl

theorem normLeaf1 : normalizeName "N::Foo" = "N::Foo" := rfl
theorem normLeaf2 : normalizeName "x" = "x" := rfl
theorem normLeaf3 : normalizeName "Bar" = "Bar" := rfl
theorem normLeaf4 : normalizeName "Qux" = "Qux" := rfl
theorem segsLeaf1 : splitSegs "N::Foo" = ["N", "Foo"] := rfl
theorem hasLeaf1 : hasSubStr "N::Foo" sepColons = true := rfl
theorem hasLeaf2 : hasSubStr "Bar" sepColons = false := rfl
theorem hasLeaf3 : hasSubStr "x" sepColons = false := rfl

theorem normLeafA : normalizeName "A" = "A" := rfl
theorem hasLeafA : hasSubStr "A" sepColons = false := rfl
theorem segsLeafA : splitSegs "A" = ["A"] := rfl
theorem lastLeafA : (["A"] : List String).getLastD "" = "A" := rfl
theorem lastLeafNF : (["N", "Foo"] : List String).getLastD "" = "Foo" := rfl

theorem segsLeafBar : splitSegs "Bar" = ["Bar"] := rfl
theorem lastLeafBar : (["Bar"] : List String).getLastD "" = "Bar" := rfl
theorem lastLeafEmpty : (([] : List String)).getLastD "" = "" := rfl
theorem normLeafEmpty : normalizeName "" = "" := rfl
theorem hasLeafEmpty : hasSubStr "" sepColons = false := rfl
theorem segsLeafEmpty : splitSegs "" = [""] := rfl

theorem dropLast_cons2 (a b : String) (l : List String) :
    (a :: b :: l).dropLast = a :: (b :: l).dropLast := rfl

theorem getLastD_single (a d : String) : ([a] : List String).getLastD d = a := rfl

theorem getLastD_cons2 (a b d : String) (l : List String) :
    (a :: b :: l).getLastD d = (b :: l).getLastD d := rfl

theorem nsLoop_nil (st : ScanState) (outerNS : Option Nat) (isFirst : Bool) :
    nsLoop st [] outerNS isFirst = (st, outerNS) := rfl

theorem nsLoop_cons (st : ScanState) (seg : String) (rest : List String)
    (outerNS : Option Nat) (isFirst : Bool) :
    nsLoop st (seg :: rest) outerNS isFirst =
      (match
        (match getType st seg with
         | some t => (st, t)
         | none =>
             match allocNode st { tag := TypeTag.cls, tname := seg, outerNamespace := outerNS } with
             | (st1, idx) => (addType st1 idx isFirst, idx)) with
      | (st1, ns) =>
          let st2 :=
            match outerNS.isSome && (nodeAt st1 ns).outerNamespace.isNone with
            | true =>
                let stA := modifyNode st1 ns (fun nd => { nd with outerNamespace := outerNS })
                let stB :=
                  match outerNS with
                  | some o => modifyNode stA o (fun nd => { nd with subUDTs := nd.subUDTs ++ [ns] })
                  | none => stA
                match stB.irTypes.contains ns with
                | true => { stB with irTypes := stB.irTypes.erase ns }
                | false => stB
            | false => st1
          nsLoop st2 rest (some ns) false) := rfl



/-! ## Successor-fuel forms of the interpreter unfolding, and the
trivial empty-loop evaluations -/

theorem runS_addSymbol (f : Nat) (sym : Sym) (outer : Option Nat) (st : ScanState) :
    run (f + 1) (Call.addSymbolC sym outer) st = stepAddSymbol (run f) sym outer st := rfl

theorem runS_addChildren (f : Nat) (sym : Sym) (filter : Nat) (outer : Option Nat) (st : ScanState) :
    run (f + 1) (Call.addChildrenC sym filter outer) st = stepAddChildren (run f) sym filter outer st := rfl

theorem runS_childLoop (f : Nat) (children : List Sym) (outer : Option Nat)
    (checkedF hadF hadS : Bool) (st : ScanState) :
    run (f + 1) (Call.childLoopC children outer checkedF hadF hadS) st =
      stepChildLoop (run f) children outer checkedF hadF hadS st := rfl

theorem runS_innerLoop (f : Nat) (children : List Sym) (st : ScanState) :
    run (f + 1) (Call.innerLoopC children) st = stepInnerLoop (run f) children st := rfl

theorem runS_createClass (f : Nat) (sym : Sym) (outer : Option Nat) (st : ScanState) :
    run (f + 1) (Call.createClassC sym outer) st = stepCreateClass (run f) sym outer st := rfl

theorem runS_createEnum (f : Nat) (sym : Sym) (outer : Option Nat) (st : ScanState) :
    run (f + 1) (Call.createEnumC sym outer) st = stepCreateEnum (run f) sym outer st := rfl

theorem runS_createTypedef (f : Nat) (sym : Sym) (outer : Option Nat) (st : ScanState) :
    run (f + 1) (Call.createTypedefC sym outer) st = stepCreateTypedef (run f) sym outer st := rfl

theorem runS_addField (f : Nat) (sym : Sym) (outer : Option Nat) (st : ScanState) :
    run (f + 1) (Call.addFieldC sym outer) st = stepAddField (run f) sym outer st := rfl

theorem runS_setType (f : Nat) (sym : Sym) (slot : Slot) (value : Option Nat) (m : Modifiers)
    (outer : Option Nat) (st : ScanState) :
    run (f + 1) (Call.setTypeC sym slot value m outer) st = stepSetType (run f) sym slot value m outer st := rfl

theorem runS_setTypeUDT (f : Nat) (tsym : Sym) (slot : Slot) (value : Option Nat)
    (outer : Option Nat) (st : ScanState) :
    run (f + 1) (Call.setTypeUDTC tsym slot value outer) st = stepSetTypeUDT (run f) tsym slot value outer st := rfl

theorem run_innerLoop_nil (f : Nat) (st : ScanState) :
    run (f + 1) (Call.innerLoopC []) st = some { st := st, rc := DDR_RC.ok } := rfl

theorem run_childLoop_nil (f : Nat) (outer : Option Nat) (cF hF hS : Bool) (st : ScanState) :
    run (f + 1) (Call.childLoopC [] outer cF hF hS) st = some { st := st, rc := DDR_RC.ok } := rfl



/-! ## Symbolic evaluation of the C2 two-source scan -/

set_option maxRecDepth 10000

theorem c2_gnfn : getNamespaceFromName {} "N::Foo" none = (stC2n, "Foo", some 0) := by rfl

theorem c2_field_sub :
    run 7 (Call.addSymbolC xSym (some 1)) stC2a = some { st := stC2b, rc := DDR_RC.ok } := by
  rfl

theorem c2_nested_sub :
    run 6 (Call.addSymbolC barSym (some 1)) stC2b = some { st := stC2c, rc := DDR_RC.ok } := by
  rfl

theorem c2_children_loop :
    run 8 (Call.childLoopC [xSym, barSym] (some 1) false false false) stC2a =
      some { st := stC2c, rc := DDR_RC.ok, dispatched := [xSym, barSym] } := by
  rfl

theorem c2_children :
    run 9 (Call.addChildrenC fooSym symTagNull (some 1)) stC2a =
      some { st := stC2c, rc := DDR_RC.ok, dispatched := [xSym, barSym] } := by
  simp only [runS_addChildren, stepAddChildren.eq_def, Sym.childrenOk, Sym.findChildren, Sym.children,
    symTagNull, nodeAt.eq_def, listGetD, c2_children_loop, run_innerLoop_nil, fooSym, udtSym, xSym, barSym, dataSym, udtRefSym, quxSym, gFoo, globalSym, Nat.reduceBEq, Nat.reduceAdd, Nat.reduceSub, String.reduceBEq, String.reduceEq,
    String.reduceAppend, Bool.or_true, Bool.or_false, Bool.true_or, Bool.false_or,
    Bool.and_true, Bool.and_false, Bool.true_and, Bool.false_and, Bool.not_true, Bool.not_false,
    Option.map_some', Option.isNone_none, Option.isNone_some, Option.isSome_none,
    Option.isSome_some, List.filter_cons, List.filter_nil, List.isEmpty_nil, List.isEmpty_cons,
    List.contains_nil, List.contains_cons, List.elem_nil, List.elem_cons, List.cons_append,
    List.nil_append, ite_true, ite_false]

theorem c2_foo_class :
    run 10 (Call.createClassC fooSym none) {} = some { st := stC2d, rc := DDR_RC.ok } := by
  simp only [runS_createClass, stepCreateClass.eq_def, Sym.tagVal, Sym.rawName, Sym.sizeVal, getNameF.eq_def,
    getSizeF.eq_def, checkBlacklistedType.eq_def, symTagUDT, normLeaf1, mapFind, c2_gnfn, allocNode.eq_def, modifyNode.eq_def,
    listModify, nodeAt.eq_def, listGetD, addType.eq_def, fullName.eq_def, fullNameAux, mapAssign, getType.eq_def,
    c2_children, fooSym, udtSym, xSym, barSym, dataSym, udtRefSym, quxSym, Nat.reduceBEq, Nat.reduceAdd, Nat.reduceSub, String.reduceBEq, String.reduceEq,
    String.reduceAppend, Bool.or_true, Bool.or_false, Bool.true_or, Bool.false_or,
    Bool.and_true, Bool.and_false, Bool.true_and, Bool.false_and, Bool.not_true, Bool.not_false,
    Option.map_some', Option.isNone_none, Option.isNone_some, Option.isSome_none,
    Option.isSome_some, List.filter_cons, List.filter_nil, List.isEmpty_nil, List.isEmpty_cons,
    List.contains_nil, List.contains_cons, List.elem_nil, List.elem_cons, List.cons_append,
    List.nil_append, ite_true, ite_false]

theorem c2_foo_sym :
    run 11 (Call.addSymbolC fooSym none) {} = some { st := stC2d, rc := DDR_RC.ok } := by
  simp only [runS_addSymbol, stepAddSymbol.eq_def, Sym.tagVal, symTagEnum, symTagUDT, c2_foo_class, fooSym, udtSym, xSym, barSym, dataSym, udtRefSym, quxSym, Nat.reduceBEq, Nat.reduceAdd, Nat.reduceSub, String.reduceBEq, String.reduceEq,
    String.reduceAppend, Bool.or_true, Bool.or_false, Bool.true_or, Bool.false_or,
    Bool.and_true, Bool.and_false, Bool.true_and, Bool.false_and, Bool.not_true, Bool.not_false,
    Option.map_some', Option.isNone_none, Option.isNone_some, Option.isSome_none,
    Option.isSome_some, List.filter_cons, List.filter_nil, List.isEmpty_nil, List.isEmpty_cons,
    List.contains_nil, List.contains_cons, List.elem_nil, List.elem_cons, List.cons_append,
    List.nil_append, ite_true, ite_false]

theorem c2_top_loop :
    run 12 (Call.childLoopC [fooSym] none false false false) {} =
      some { st := stC2d, rc := DDR_RC.ok, dispatched := [fooSym] } := by
  simp only [runS_childLoop, stepChildLoop.eq_def, Sym.tagVal, getNameF.eq_def, Sym.rawName, normLeaf1,
    hasLeaf1, symTagEnum, symTagUDT, symTagData, c2_foo_sym, run_childLoop_nil, fooSym, udtSym, xSym, barSym, dataSym, udtRefSym, quxSym, nodeAt.eq_def,
    listGetD, Nat.reduceBEq, Nat.reduceAdd, Nat.reduceSub, String.reduceBEq, String.reduceEq,
    String.reduceAppend, Bool.or_true, Bool.or_false, Bool.true_or, Bool.false_or,
    Bool.and_true, Bool.and_false, Bool.true_and, Bool.false_and, Bool.not_true, Bool.not_false,
    Option.map_some', Option.isNone_none, Option.isNone_some, Option.isSome_none,
    Option.isSome_some, List.filter_cons, List.filter_nil, List.isEmpty_nil, List.isEmpty_cons,
    List.contains_nil, List.contains_cons, List.elem_nil, List.elem_cons, List.cons_append,
    List.nil_append, ite_true, ite_false]

theorem c2_udt_pass :
    run 13 (Call.addChildrenC gFoo symTagUDT none) {} =
      some { st := stC2d, rc := DDR_RC.ok, dispatched := [fooSym] } := by
  simp only [runS_addChildren, stepAddChildren.eq_def, Sym.childrenOk, Sym.findChildren, Sym.children,
    Sym.tagVal, symTagUDT, symTagNull, c2_top_loop, run_innerLoop_nil, gFoo, globalSym, fooSym, udtSym, xSym, barSym, dataSym, udtRefSym, quxSym, nodeAt.eq_def, listGetD, Nat.reduceBEq, Nat.reduceAdd, Nat.reduceSub, String.reduceBEq, String.reduceEq,
    String.reduceAppend, Bool.or_true, Bool.or_false, Bool.true_or, Bool.false_or,
    Bool.and_true, Bool.and_false, Bool.true_and, Bool.false_and, Bool.not_true, Bool.not_false,
    Option.map_some', Option.isNone_none, Option.isNone_some, Option.isSome_none,
    Option.isSome_some, List.filter_cons, List.filter_nil, List.isEmpty_nil, List.isEmpty_cons,
    List.contains_nil, List.contains_cons, List.elem_nil, List.elem_cons, List.cons_append,
    List.nil_append, ite_true, ite_false]

theorem c2_enum_pass (f : Nat) (st : ScanState) :
    run (f + 2) (Call.addChildrenC gFoo symTagEnum none) st = some { st := st, rc := DDR_RC.ok } := by
  simp only [runS_addChildren, stepAddChildren.eq_def, Sym.childrenOk, Sym.findChildren,
    Sym.children, Sym.tagVal, gFoo, globalSym, fooSym, udtSym, symTagEnum, symTagUDT,
    symTagNull, symTagData, Bool.false_eq_true, Bool.true_eq_false, eq_self_iff_true,
    run_childLoop_nil, run_innerLoop_nil, Nat.reduceBEq, List.filter_cons, List.filter_nil,
    Bool.not_true, Bool.not_false, ite_true, ite_false]

theorem c2_tdef_pass (f : Nat) (st : ScanState) :
    run (f + 2) (Call.addChildrenC gFoo symTagTypedef none) st = some { st := st, rc := DDR_RC.ok } := by
  simp only [runS_addChildren, stepAddChildren.eq_def, Sym.childrenOk, Sym.findChildren,
    Sym.children, Sym.tagVal, gFoo, globalSym, fooSym, udtSym, symTagTypedef, symTagUDT,
    symTagNull, symTagData, Bool.false_eq_true, Bool.true_eq_false, eq_self_iff_true,
    run_childLoop_nil, run_innerLoop_nil, Nat.reduceBEq, List.filter_cons, List.filter_nil,
    Bool.not_true, Bool.not_false, ite_true, ite_false]

theorem load_srcFoo : loadDataFromPdbM srcFoo = (allHandles, DDR_RC.ok) := rfl

theorem load_srcA : loadDataFromPdbM srcA = (allHandles, DDR_RC.ok) := rfl

theorem load_srcBroken : loadDataFromPdbM srcBroken = (allHandles, DDR_RC.ok) := rfl

theorem release_all : (releaseBlock allHandles).2 = allReleased := rfl

theorem c2_pass1 : processSourceM 13 {} srcFoo = some (stC2d, DDR_RC.ok, allHandles, allReleased) := by
  simp only [processSourceM.eq_def, load_srcFoo, release_all, srcFoo, c2_udt_pass, c2_enum_pass,
    c2_tdef_pass]

theorem c2_revisit_children :
    run 9 (Call.addChildrenC fooSym symTagNull (some 1)) stC2d = some { st := stC2d, rc := DDR_RC.ok } := by
  rfl

theorem c2_revisit_class :
    run 10 (Call.createClassC fooSym none) stC2d = some { st := stC2d, rc := DDR_RC.ok } := by
  simp only [runS_createClass, stepCreateClass.eq_def, Sym.tagVal, Sym.rawName, Sym.sizeVal,
    getNameF.eq_def, getSizeF.eq_def, checkBlacklistedType.eq_def, symTagUDT, normLeaf1,
    mapFind, getType.eq_def, chaseBaseType, getBaseType.eq_def, nodeAt.eq_def, listGetD,
    fooSym, udtSym, xSym, barSym, dataSym, udtRefSym, quxSym, c2_revisit_children,
    Nat.reduceBEq, Nat.reduceAdd, String.reduceBEq, Option.map_some', Option.isNone_none,
    Option.isNone_some, Option.isSome_none, Option.isSome_some, Bool.or_true, Bool.or_false,
    Bool.true_or, Bool.false_or, Bool.and_true, Bool.and_false, Bool.true_and, Bool.false_and,
    Bool.not_true, Bool.not_false, List.contains_nil, List.contains_cons, List.elem_nil,
    List.elem_cons, ite_true, ite_false]

theorem c2_revisit_sym :
    run 11 (Call.addSymbolC fooSym none) stC2d = some { st := stC2d, rc := DDR_RC.ok } := by
  simp only [runS_addSymbol, stepAddSymbol.eq_def, Sym.tagVal, symTagEnum, symTagUDT,
    fooSym, udtSym, xSym, barSym, dataSym, udtRefSym, quxSym, c2_revisit_class, Nat.reduceBEq]

theorem c2_revisit_loop :
    run 12 (Call.childLoopC [fooSym] none false false false) stC2d =
      some { st := stC2d, rc := DDR_RC.ok, dispatched := [fooSym] } := by
  simp only [runS_childLoop, stepChildLoop.eq_def, Sym.tagVal, getNameF.eq_def, Sym.rawName,
    normLeaf1, hasLeaf1, symTagEnum, symTagUDT, symTagData, c2_revisit_sym, run_childLoop_nil,
    nodeAt.eq_def, listGetD, fooSym, udtSym, xSym, barSym, dataSym, udtRefSym, quxSym,
    Nat.reduceBEq, Option.map_some', Option.isNone_none, Option.isNone_some, Bool.or_true,
    Bool.or_false, Bool.true_or, Bool.false_or, Bool.and_true, Bool.and_false, Bool.true_and,
    Bool.false_and, Bool.not_true, Bool.not_false, ite_true, ite_false]

theorem c2_udt_pass2 :
    run 13 (Call.addChildrenC gFoo symTagUDT none) stC2d =
      some { st := stC2d, rc := DDR_RC.ok, dispatched := [fooSym] } := by
  simp only [runS_addChildren, stepAddChildren.eq_def, Sym.childrenOk, Sym.findChildren,
    Sym.children, Sym.tagVal, symTagUDT, symTagNull, c2_revisit_loop, run_innerLoop_nil,
    gFoo, globalSym, fooSym, udtSym, xSym, barSym, dataSym, udtRefSym, quxSym, nodeAt.eq_def,
    listGetD, Nat.reduceBEq, List.filter_cons, List.filter_nil, Bool.not_true, Bool.not_false,
    List.isEmpty_nil, List.isEmpty_cons, ite_true, ite_false]

theorem c2_pass2 : processSourceM 13 stC2d srcFoo = some (stC2d, DDR_RC.ok, allHandles, allReleased) := by
  simp only [processSourceM.eq_def, load_srcFoo, release_all, srcFoo, c2_udt_pass2, c2_enum_pass,
    c2_tdef_pass]

theorem scanLoopM_nil (fuel : Nat) (st : ScanState) :
    scanLoopM fuel st [] = some (st, DDR_RC.ok, 0, []) := rfl

theorem scanLoopM_cons (fuel : Nat) (st : ScanState) (s : Source) (rest : List Source) :
    scanLoopM fuel st (s :: rest) =
      match processSourceM fuel st s with
      | none => none
      | some (st1, rc, acq, rel) =>
          match rc with
          | DDR_RC.ok =>
              (scanLoopM fuel st1 rest).map
                (fun out => (out.1, out.2.1, out.2.2.1 + 1, (acq, rel) :: out.2.2.2))
          | DDR_RC.error => some (st1, rc, 1, [(acq, rel)]) := rfl

theorem resC2_eval :
    resC2 = some (stC2d, DDR_RC.ok, 2, [(allHandles, allReleased), (allHandles, allReleased)]) := by
  simp only [resC2, scanLoopM_cons, scanLoopM_nil, c2_pass1, c2_pass2, Option.map_some',
    Nat.reduceAdd]


/-! ## Symbolic evaluation of the C1 construction and the C3 batch -/

set_option maxRecDepth 10000

theorem resC1_eval : resC1 = some { st := stC1d, rc := DDR_RC.ok } := by rfl

theorem c3_udt_pass :
    run 13 (Call.addChildrenC gA symTagUDT none) {} =
      some { st := stC3a, rc := DDR_RC.ok, dispatched := [aSym] } := by rfl

theorem c3_enum_pass (f : Nat) (st : ScanState) :
    run (f + 2) (Call.addChildrenC gA symTagEnum none) st = some { st := st, rc := DDR_RC.ok } := by
  simp only [runS_addChildren, stepAddChildren.eq_def, Sym.childrenOk, Sym.findChildren,
    Sym.children, Sym.tagVal, gA, globalSym, aSym, udtSym, symTagEnum, symTagUDT,
    symTagNull, Bool.false_eq_true, Bool.true_eq_false, eq_self_iff_true,
    run_childLoop_nil, run_innerLoop_nil, Nat.reduceBEq, List.filter_cons, List.filter_nil,
    Bool.not_true, Bool.not_false, ite_true, ite_false]

theorem c3_tdef_pass (f : Nat) (st : ScanState) :
    run (f + 2) (Call.addChildrenC gA symTagTypedef none) st = some { st := st, rc := DDR_RC.ok } := by
  simp only [runS_addChildren, stepAddChildren.eq_def, Sym.childrenOk, Sym.findChildren,
    Sym.children, Sym.tagVal, gA, globalSym, aSym, udtSym, symTagTypedef, symTagUDT,
    symTagNull, symTagData, Bool.false_eq_true, Bool.true_eq_false, eq_self_iff_true,
    run_childLoop_nil, run_innerLoop_nil, Nat.reduceBEq, List.filter_cons, List.filter_nil,
    Bool.not_true, Bool.not_false, ite_true, ite_false]

theorem c3_pass1 : processSourceM 13 {} srcA = some (stC3a, DDR_RC.ok, allHandles, allReleased) := by
  simp only [processSourceM.eq_def, load_srcA, release_all, srcA, c3_udt_pass, c3_enum_pass,
    c3_tdef_pass]

theorem c3_passBad (fuel : Nat) (st : ScanState) :
    processSourceM fuel st srcBad =
      some (st, DDR_RC.error, { dataSource := true }, [PdbHandle.dataSource]) := by rfl

theorem resC3_eval :
    resC3 = some (stC3a, DDR_RC.error, 2,
      [(allHandles, allReleased), ({ dataSource := true }, [PdbHandle.dataSource])]) := by
  simp only [resC3, scanLoopM_cons, scanLoopM_nil, c3_pass1, c3_passBad, Option.map_some',
    Nat.reduceAdd]

/-- The release block Releases exactly the handles that are non-NULL
when it runs, and leaves every pointer NULL. -/
theorem releaseBlock_clears (h : Handles) : releaseBlock h = ({}, acquiredHandles h) := by
  obtain ⟨a, b, c⟩ := h
  cases a <;> cases b <;> cases c <;> rfl

theorem cb_sym :
    run 11 (Call.addSymbolC brokenSym none) {} = some { st := {}, rc := DDR_RC.error } := by rfl

theorem cb_udt_pass :
    run 13 (Call.addChildrenC gBroken symTagUDT none) {} =
      some { st := {}, rc := DDR_RC.ok, dispatched := [brokenSym] } := by rfl

theorem cb_enum_pass (f : Nat) (st : ScanState) :
    run (f + 2) (Call.addChildrenC gBroken symTagEnum none) st = some { st := st, rc := DDR_RC.ok } := by
  simp only [runS_addChildren, stepAddChildren.eq_def, Sym.childrenOk, Sym.findChildren,
    Sym.children, Sym.tagVal, gBroken, globalSym, brokenSym, symTagEnum, symTagUDT,
    symTagNull, Bool.false_eq_true, Bool.true_eq_false, eq_self_iff_true,
    run_childLoop_nil, run_innerLoop_nil, Nat.reduceBEq, List.filter_cons, List.filter_nil,
    Bool.not_true, Bool.not_false, ite_true, ite_false]

theorem cb_tdef_pass (f : Nat) (st : ScanState) :
    run (f + 2) (Call.addChildrenC gBroken symTagTypedef none) st = some { st := st, rc := DDR_RC.ok } := by
  simp only [runS_addChildren, stepAddChildren.eq_def, Sym.childrenOk, Sym.findChildren,
    Sym.children, Sym.tagVal, gBroken, globalSym, brokenSym, symTagTypedef, symTagUDT,
    symTagNull, symTagData, Bool.false_eq_true, Bool.true_eq_false, eq_self_iff_true,
    run_childLoop_nil, run_innerLoop_nil, Nat.reduceBEq, List.filter_cons, List.filter_nil,
    Bool.not_true, Bool.not_false, ite_true, ite_false]

theorem cb_pass : processSourceM 13 {} srcBroken = some ({}, DDR_RC.ok, allHandles, allReleased) := by
  simp only [processSourceM.eq_def, load_srcBroken, release_all, srcBroken, cb_udt_pass,
    cb_enum_pass, cb_tdef_pass]

theorem resC3swallow_eval :
    resC3swallow = some (stC3a, DDR_RC.ok, 2,
      [(allHandles, allReleased), (allHandles, allReleased)]) := by
  simp only [resC3swallow, scanLoopM_cons, scanLoopM_nil, cb_pass, c3_pass1, Option.map_some',
    Nat.reduceAdd]


/-! ## Claims C4 to C10 -/

theorem patchOne_typeMap (st : ScanState) (e : Slot × String) :
    (patchOne st e).typeMap = st.typeMap := by
  obtain ⟨s, n⟩ := e
  simp only [patchOne.eq_def]
  split <;> cases s <;>
    simp only [writeSlot.eq_def, modifyNode.eq_def, allocNode.eq_def]

theorem patchOne_irTypes (st : ScanState) (e : Slot × String) :
    (patchOne st e).irTypes = st.irTypes := by
  obtain ⟨s, n⟩ := e
  simp only [patchOne.eq_def]
  split <;> cases s <;>
    simp only [writeSlot.eq_def, modifyNode.eq_def, allocNode.eq_def]

theorem patch_foldl_typeMap (l : List (Slot × String)) (st : ScanState) :
    (l.foldl patchOne st).typeMap = st.typeMap := by
  induction l generalizing st with
  | nil => rfl
  | cons e rest ih => rw [List.foldl_cons, ih, patchOne_typeMap]

theorem patch_foldl_irTypes (l : List (Slot × String)) (st : ScanState) :
    (l.foldl patchOne st).irTypes = st.irTypes := by
  induction l generalizing st with
  | nil => rfl
  | cons e rest ih => rw [List.foldl_cons, ih, patchOne_irTypes]

set_option maxRecDepth 10000 in
/-- C4: after a successful scan the postponed-reference patcher always
reports OK, never touches the registry or the root list, binds a
registered name's slot to the registered type, binds an unregistered
name's slot to a freshly synthesized placeholder ClassUDT carrying that
name (appended to the arena, registered nowhere, owned by nothing), and
on the concrete Holder/Later/Never scenario leaves no patched slot null. -/
theorem C4_postponed_patcher :
    (∀ st, (updatePostponedFieldNames st).2 = DDR_RC.ok) ∧
    (∀ st, ((updatePostponedFieldNames st).1).typeMap = st.typeMap) ∧
    (∀ st, ((updatePostponedFieldNames st).1).irTypes = st.irTypes) ∧
    (∀ st s n t, mapFind st.typeMap n = some t →
        patchOne st (s, n) = writeSlot st s (some t)) ∧
    (∀ st s n, mapFind st.typeMap n = none →
        patchOne st (s, n) =
          writeSlot { st with arena := st.arena ++ [{ tag := TypeTag.cls, tname := n }], arenaLen := st.arenaLen + 1 } s (some st.arenaLen)) ∧
    ((updatePostponedFieldNames stPatch).2 = DDR_RC.ok ∧
      ((nodeAt stPatched 0).fieldMembers.map (fun f => f.fieldType)) = [some 1, some 2] ∧
      (nodeAt stPatched 2).tname = "Never" ∧
      (nodeAt stPatched 2).outerNamespace = none ∧
      mapFind stPatched.typeMap "Never" = none ∧
      stPatched.irTypes = [0, 1] ∧ stPatched.arenaLen = 3 ∧
      stPatched.typeMap = stPatch.typeMap ∧
      readSlot stPatched (Slot.fieldType 0 0) = some 1 ∧
      readSlot stPatched (Slot.fieldType 0 1) = some 2) := by
  refine ⟨fun st => rfl, fun st => patch_foldl_typeMap _ _, fun st => patch_foldl_irTypes _ _,
    ?_, ?_, rfl, rfl, rfl, rfl, rfl, rfl, rfl, rfl, rfl, rfl⟩
  · intro st s n t h
    simp only [patchOne.eq_def, h]
  · intro st s n h
    simp only [patchOne.eq_def, h, allocNode.eq_def]

set_option maxRecDepth 10000 in
/-- C5: the anonymous-type renamer gives an eligible anonymous node (no
owner, no qualification separator) the next sequential synthetic name
and advances the shared counter, blanks the name of every other
anonymous node without touching the counter, leaves named nodes alone,
and on the concrete witness graph produces AnonymousType0 /
AnonymousType1 in visitation order with the nested anonymous child
blanked. -/
theorem C5_anonymous_renamer :
    (∀ st idx cnt, isEligibleAnon (nodeAt st idx) = true →
        renameStep st idx cnt =
          (modifyNode st idx (fun x => { x with tname := anonNameStr cnt }), cnt + 1)) ∧
    (∀ st idx cnt, isAnonNamed (nodeAt st idx) = true →
        isEligibleAnon (nodeAt st idx) = false →
        renameStep st idx cnt = (modifyNode st idx (fun x => { x with tname := "" }), cnt)) ∧
    (∀ st idx cnt, isAnonNamed (nodeAt st idx) = false → renameStep st idx cnt = (st, cnt)) ∧
    (renameAnonymousTypesM 9 wStC5).map
        (fun r => (r.1.arena.map (fun nd => nd.tname), r.2)) =
      some (["AnonymousType0", "Host", "", "AnonymousType1"], [0, 1, 2, 3]) := by
  refine ⟨?_, ?_, ?_, rfl⟩
  · intro st idx cnt h
    simp only [isEligibleAnon, Bool.and_eq_true] at h
    obtain ⟨⟨h1, h2⟩, h3⟩ := h
    simp only [renameStep.eq_def, h1, h2, h3, Bool.true_and]
  · intro st idx cnt h1 h2
    simp only [isEligibleAnon, h1, Bool.true_and] at h2
    simp only [renameStep.eq_def, h1, h2]
  · intro st idx cnt h
    simp only [renameStep.eq_def, h]

set_option maxRecDepth 10000 in
/-- C6: base-type resolution maps unsigned widths 1/2/4/8/16 to the
canonical U8..U128 entries, signed widths 1/2/4/8 to I8..I64, float
widths 4/8 to float/double, reports an unknown-width error for any other
width of those codes, and on the seeded base-type table two lookups of
the same code and width yield the identical node index (U32 is node 22
whatever the incoming value was). -/
theorem C6_base_type_widths :
    (∀ st ty, setBaseTypeUInt st 1 ty = (getType st "U8", DDR_RC.ok) ∧
      setBaseTypeUInt st 2 ty = (getType st "U16", DDR_RC.ok) ∧
      setBaseTypeUInt st 4 ty = (getType st "U32", DDR_RC.ok) ∧
      setBaseTypeUInt st 8 ty = (getType st "U64", DDR_RC.ok) ∧
      setBaseTypeUInt st 16 ty = (getType st "U128", DDR_RC.ok) ∧
      setBaseTypeInt st 1 ty = (getType st "I8", DDR_RC.ok) ∧
      setBaseTypeInt st 2 ty = (getType st "I16", DDR_RC.ok) ∧
      setBaseTypeInt st 4 ty = (getType st "I32", DDR_RC.ok) ∧
      setBaseTypeInt st 8 ty = (getType st "I64", DDR_RC.ok) ∧
      setBaseTypeFloat st 4 ty = (getType st "float", DDR_RC.ok) ∧
      setBaseTypeFloat st 8 ty = (getType st "double", DDR_RC.ok)) ∧
    (∀ st ty len, len ≠ 1 → len ≠ 2 → len ≠ 4 → len ≠ 8 → len ≠ 16 →
        setBaseTypeUInt st len ty = (ty, DDR_RC.error)) ∧
    (∀ st ty len, len ≠ 1 → len ≠ 2 → len ≠ 4 → len ≠ 8 →
        setBaseTypeInt st len ty = (ty, DDR_RC.error)) ∧
    (∀ st ty len, len ≠ 4 → len ≠ 8 →
        setBaseTypeFloat st len ty = (ty, DDR_RC.error)) ∧
    (setBaseType (initBaseTypeList {}) (baseTypeSym btUInt 4) none = (some 22, DDR_RC.ok) ∧
      setBaseType (initBaseTypeList {}) (baseTypeSym btUInt 4) (some 99) = (some 22, DDR_RC.ok) ∧
      (nodeAt (initBaseTypeList {}) 22).tname = "U32" ∧
      setBaseType (initBaseTypeList {}) (baseTypeSym btInt 8) none = (some 18, DDR_RC.ok) ∧
      (nodeAt (initBaseTypeList {}) 18).tname = "I64" ∧
      setBaseType (initBaseTypeList {}) (baseTypeSym btFloat 4) none = (some 8, DDR_RC.ok) ∧
      (nodeAt (initBaseTypeList {}) 8).tname = "float" ∧
      setBaseType (initBaseTypeList {}) (baseTypeSym btFloat 8) none = (some 33, DDR_RC.ok) ∧
      (nodeAt (initBaseTypeList {}) 33).tname = "double" ∧
      setBaseType (initBaseTypeList {}) (baseTypeSym btUInt 3) none = (none, DDR_RC.error)) := by
  refine ⟨fun st ty => ⟨rfl, rfl, rfl, rfl, rfl, rfl, rfl, rfl, rfl, rfl, rfl⟩, ?_, ?_, ?_,
    ⟨rfl, rfl, rfl, rfl, rfl, rfl, rfl, rfl, rfl, rfl⟩⟩
  · intro st ty len h1 h2 h4 h8 h16
    simp only [setBaseTypeUInt.eq_def]
  · intro st ty len h1 h2 h4 h8
    simp only [setBaseTypeInt.eq_def]
  · intro st ty len h4 h8
    simp only [setBaseTypeFloat.eq_def]

set_option maxRecDepth 10000 in
/-- C7 (counterexample to the claim): a typedef whose name accessor
fails makes createTypedef report DDR_RC_ERROR, yet addSymbol returns
DDR_RC_OK for the very same declaration - the dispatcher discards the
typedef builder's return code instead of propagating it. -/
theorem C7_typedef_error_discarded :
    createTypedefM 2 {} typedefBadNameSym none = some { st := {}, rc := DDR_RC.error } ∧
    addSymbolM 3 {} typedefBadNameSym none = some { st := {}, rc := DDR_RC.ok } :=
  ⟨rfl, rfl⟩

set_option maxRecDepth 10000 in
/-- C7 (amended): addSymbol forwards the builder result unchanged for
UDT, enum and data-member declarations, so their errors reach the
caller; but for a global-scope typedef it returns DDR_RC_OK whatever
createTypedef reported. -/
theorem C7_error_propagation_actual :
    (∀ next sym outer st, sym.tagVal = some symTagUDT →
        stepAddSymbol next sym outer st = next (Call.createClassC sym outer) st) ∧
    (∀ next sym outer st, sym.tagVal = some symTagEnum →
        stepAddSymbol next sym outer st = next (Call.createEnumC sym outer) st) ∧
    (∀ next sym outer st, sym.tagVal = some symTagData →
        stepAddSymbol next sym outer st = next (Call.addFieldC sym outer) st) ∧
    (∀ next sym st r, sym.tagVal = some symTagTypedef →
        next (Call.createTypedefC sym none) st = some r →
        stepAddSymbol next sym none st = some { st := r.st, rc := DDR_RC.ok }) := by
  refine ⟨?_, ?_, ?_, ?_⟩
  · intro next sym outer st h
    simp only [stepAddSymbol.eq_def, h, symTagEnum, symTagUDT, Nat.reduceBEq]
  · intro next sym outer st h
    simp only [stepAddSymbol.eq_def, h, symTagEnum, symTagUDT, Nat.reduceBEq]
  · intro next sym outer st h
    simp only [stepAddSymbol.eq_def, h, symTagEnum, symTagUDT, symTagData, Nat.reduceBEq]
  · intro next sym st r h h2
    simp only [stepAddSymbol.eq_def, h, h2, symTagEnum, symTagUDT, symTagData, symTagBaseClass,
      symTagVTableShape, symTagVTable, symTagFunction, symTagTypedef, Nat.reduceBEq,
      Bool.or_false, Bool.false_or, Bool.or_true, Bool.true_or]

set_option maxRecDepth 10000 in
/-- C8: setSuperClassName reports overall success on every path; a
registered superclass name is bound through the owner's superclass slot
immediately, an unregistered one is recorded as a PostponedReference,
and an unreadable name is skipped with the state untouched. -/
theorem C8_superclass_always_ok :
    (∀ st s udt, (setSuperClassName st s udt).2 = DDR_RC.ok) ∧
    (∀ st s udt, getNameF s = none → (setSuperClassName st s udt).1 = st) ∧
    (∀ st s udt nm t, getNameF s = some nm → (nm == "") = false →
        mapFind st.typeMap nm = some t →
        (setSuperClassName st s udt).1 = writeSlot st (Slot.superClass udt) (some t)) ∧
    (∀ st s udt nm, getNameF s = some nm → (nm == "") = false →
        mapFind st.typeMap nm = none →
        (setSuperClassName st s udt).1 =
          { st with postponed := st.postponed ++ [(Slot.superClass udt, nm)] }) := by
  refine ⟨fun st s udt => rfl, ?_, ?_, ?_⟩
  · intro st s udt h
    simp only [setSuperClassName, h]
  · intro st s udt nm t h1 h2 h3
    simp only [setSuperClassName, h1, h2, h3]
  · intro st s udt nm h1 h2 h3
    simp only [setSuperClassName, h1, h2, h3]

set_option maxRecDepth 10000 in
/-- C9: for the typedef MyTd aliasing the not-yet-registered class Foo,
type resolution reports success with a NULL type value (the reference is
only postponed), and createTypedef then dereferences that NULL aliased
type while copying the size: the embedded run does not return. -/
theorem C9_typedef_size_copy_crash :
    createTypedefM 6 {} tdC9 none = none ∧
    setTypeM 4 {} tdC9 (Slot.aliasedType 0) none {} none =
      some { st := { postponed := [(Slot.aliasedType 0, "Foo")] }, rc := DDR_RC.ok, value := none } :=
  ⟨rfl, rfl⟩

theorem isPrefixOf_append_self (pat rest : List Char) : pat.isPrefixOf (pat ++ rest) = true := by
  induction pat with
  | nil => cases rest <;> rfl
  | cons c cs ih =>
      show (c == c && cs.isPrefixOf (cs ++ rest)) = true
      rw [beq_self_eq_true, Bool.true_and]
      exact ih

theorem findSub_self_append (c : Char) (cs rest : List Char) :
    findSub (c :: cs) ((c :: cs) ++ rest) = some 0 := by
  have h := isPrefixOf_append_self (c :: cs) rest
  show (match (c :: cs).isPrefixOf ((c :: cs) ++ rest) with
        | true => some 0
        | false => (findSub (c :: cs) (cs ++ rest)).map (fun n => n + 1)) = some 0
  rw [h]

set_option maxRecDepth 10000 in
/-- C10: getName deletes the first anonymous-namespace marker from every
symbol name before the name is used anywhere: prepending the hyphen
marker to any character sequence strips exactly that prefix, a name with
no marker is untouched, only the first of two markers is removed, the
space spelling is handled too, and getName always yields the normalized
form of the raw symbol name. -/
theorem C10_anon_namespace_stripping :
    (∀ rest : List Char, normalizeChars (anonHyphen ++ rest) = rest) ∧
    (∀ cs, findSub anonHyphen cs = none → findSub anonSpace cs = none →
        normalizeChars cs = cs) ∧
    normalizeName "`anonymous-namespace'::Foo::`anonymous-namespace'::Bar" =
      "Foo::`anonymous-namespace'::Bar" ∧
    normalizeName "`anonymous namespace'::Baz" = "Baz" ∧
    (∀ s raw, s.rawName = some raw → getNameF s = some (normalizeName raw)) := by
  refine ⟨?_, ?_, rfl, rfl, ?_⟩
  · intro rest
    have h0 : findSub anonHyphen (anonHyphen ++ rest) = some 0 :=
      findSub_self_append '`' "anonymous-namespace'::".data rest
    simp only [normalizeChars.eq_def, h0, eraseAt23, Nat.zero_add, List.take_zero,
      List.nil_append]
    rw [show (23 : Nat) = anonHyphen.length from rfl, List.drop_left]
  · intro cs h1 h2
    simp only [normalizeChars.eq_def, h1, h2]
  · intro s raw h
    simp only [getNameF.eq_def, h, Option.map_some']


/-! ## Claims C1 to C3 -/

theorem stC1_eval : stC1 = stC1d := by
  simp only [stC1, resC1_eval]

theorem stC2_eval : stC2 = stC2d := by
  simp only [stC2, resC2_eval]

set_option maxRecDepth 10000 in
/-- C1 (amended): constructing the single UDT Outer::Inner::Leaf on an
empty state succeeds and produces the three-level chain with Outer in
the root list only and Leaf in Inner's sub-UDT list; but the
synthesized Inner, although its owner-namespace reference is set to
Outer and it is kept out of the root list, is never entered into
Outer's sub-UDT list, so the chain is broken between its first two
levels. -/
theorem C1_namespace_chain_actual :
    resC1 = some { st := stC1d, rc := DDR_RC.ok } ∧
    stC1.irTypes = [0] ∧
    (nodeAt stC1 0).tname = "Outer" ∧
    (nodeAt stC1 1).tname = "Inner" ∧
    (nodeAt stC1 2).tname = "Leaf" ∧
    (nodeAt stC1 1).outerNamespace = some 0 ∧
    (nodeAt stC1 0).subUDTs = [] ∧
    (nodeAt stC1 2).outerNamespace = some 1 ∧
    (nodeAt stC1 1).subUDTs = [2] ∧
    mapFind stC1.typeMap "Outer::Inner" = some 1 ∧
    mapFind stC1.typeMap "Outer::Inner::Leaf" = some 2 := by
  refine ⟨resC1_eval, ?_, ?_, ?_, ?_, ?_, ?_, ?_, ?_, ?_, ?_⟩ <;>
    simp only [stC1_eval] <;> rfl

set_option maxRecDepth 10000 in
/-- C1 (counterexample): in the Outer::Inner::Leaf scan the synthesized
Inner container ends with its owner-namespace reference set to Outer,
yet Outer's sub-UDT list does not contain it and the root list holds
Outer alone - so Inner is reachable from neither the root list nor its
parent's child list, contradicting the claimed pairing invariant. -/
theorem C1_owner_set_child_entry_missing :
    (nodeAt stC1 1).outerNamespace = some 0 ∧
    (nodeAt stC1 0).subUDTs.contains 1 = false ∧
    stC1.irTypes.contains 1 = false ∧
    stC1.irTypes.contains 0 = true := by
  refine ⟨?_, ?_, ?_, ?_⟩ <;> simp only [stC1_eval] <;> rfl

set_option maxRecDepth 10000 in
/-- C2: during child-symbol processing a nested sub-type is skipped
whenever the revisited node already had sub-UDTs at the start of the
pass, a data member is skipped whenever the node's field list was
non-empty when its first data child of the pass was checked, and
scanning the same N::Foo source twice therefore leaves exactly one Foo
node, reachable from N's child list, with its single field and single
nested type not duplicated. -/
theorem C2_merge_guards_no_duplication :
    (∀ (next : Call → ScanState → Option RunOut) (ch : Sym) (rest : List Sym)
        (outer : Option Nat) (cF hF : Bool) (st : ScanState) (nm : String),
      ch.tagVal = some symTagUDT → getNameF ch = some nm →
      (outer.isNone || ! hasSubStr nm sepColons) = true →
      stepChildLoop next (ch :: rest) outer cF hF true st =
        next (Call.childLoopC rest outer cF hF true) st) ∧
    (∀ (next : Call → ScanState → Option RunOut) (ch : Sym) (rest : List Sym)
        (u : Nat) (hS : Bool) (st : ScanState),
      ch.tagVal = some symTagData →
      (nodeAt st u).fieldMembers.isEmpty = false →
      stepChildLoop next (ch :: rest) (some u) false false hS st =
        next (Call.childLoopC rest (some u) true true hS) st) ∧
    resC2 = some (stC2d, DDR_RC.ok, 2, [(allHandles, allReleased), (allHandles, allReleased)]) ∧
    (stC2.arena.filter (fun nd => nd.tname == "Foo")).length = 1 ∧
    stC2.arenaLen = 3 ∧
    (nodeAt stC2 0).tname = "N" ∧
    (nodeAt stC2 0).subUDTs = [1] ∧
    (nodeAt stC2 1).tname = "Foo" ∧
    (nodeAt stC2 1).fieldMembers = [{ fname := "x" }] ∧
    (nodeAt stC2 1).subUDTs = [2] ∧
    (nodeAt stC2 2).tname = "Bar" := by
  refine ⟨?_, ?_, resC2_eval, ?_, ?_, ?_, ?_, ?_, ?_, ?_, ?_⟩
  · intro next ch rest outer cF hF st nm h1 h2 h3
    simp only [stepChildLoop.eq_def, h1, h2, h3, symTagUDT, symTagEnum, symTagData,
      Nat.reduceBEq, Bool.or_true, Bool.true_or, Bool.or_false, Bool.false_or,
      Bool.and_true, Bool.and_false, Bool.true_and, Bool.false_and,
      Bool.not_true, Bool.not_false]
  · intro next ch rest u hS st h1 h2
    simp only [stepChildLoop.eq_def, h1, h2, symTagUDT, symTagEnum, symTagData,
      Nat.reduceBEq, hasLeafEmpty, Bool.or_true, Bool.true_or, Bool.or_false, Bool.false_or,
      Bool.and_true, Bool.and_false, Bool.true_and, Bool.false_and,
      Bool.not_true, Bool.not_false]
  all_goals simp only [stC2_eval] <;> rfl

set_option maxRecDepth 10000 in
/-- C3 (corrected): every per-source iteration runs the unconditional
release block, which Releases exactly the handles the load phase left
non-NULL and sets every pointer back to NULL; the batch loop stops at
the first iteration whose rc is an error - which a failure to open the
source produces, as do errors that escape addChildrenSymbols - and on
the concrete three-source batch whose second source fails to open, only
the first two sources are attempted, the first source's A stays in the
IR and registry as built (no rollback), and the never-attempted third
source's C is absent.  But the error of a dispatched top-level addSymbol
call is NOT such an error: the direct-children loop discards that
return code and continues from the builder's state, whatever rc it
reported, so a failing construction step by itself aborts nothing. -/
theorem C3_failfast_and_handles_actual :
    (∀ h, releaseBlock h = ({}, acquiredHandles h)) ∧
    (∀ fuel st src out, processSourceM fuel st src = some out →
        out.2.2.2 = acquiredHandles out.2.2.1) ∧
    (∀ fuel st s rest st1 a r,
        processSourceM fuel st s = some (st1, DDR_RC.error, a, r) →
        scanLoopM fuel st (s :: rest) = some (st1, DDR_RC.error, 1, [(a, r)])) ∧
    (∀ (next : Call → ScanState → Option RunOut) (ch : Sym) (rest : List Sym)
        (cF hF : Bool) (st : ScanState) (nm : String) (r : RunOut),
      ch.tagVal = some symTagUDT → getNameF ch = some nm →
      next (Call.addSymbolC ch none) st = some r →
      stepChildLoop next (ch :: rest) none cF hF false st =
        (match next (Call.childLoopC rest none cF hF false) r.st with
         | none => none
         | some r2 => some { r2 with dispatched := ch :: r2.dispatched })) ∧
    resC3 = some (stC3a, DDR_RC.error, 2,
      [(allHandles, allReleased), ({ dataSource := true }, [PdbHandle.dataSource])]) ∧
    mapFind stC3a.typeMap "A" = some 0 ∧
    stC3a.irTypes = [0] ∧
    (nodeAt stC3a 0).tname = "A" ∧
    mapFind stC3a.typeMap "C" = none := by
  refine ⟨releaseBlock_clears, ?_, ?_, ?_, resC3_eval, rfl, rfl, rfl, rfl⟩
  · intro fuel st src out h
    simp only [processSourceM.eq_def] at h
    repeat' split at h
    all_goals cases h
    all_goals simp only [releaseBlock_clears]
  · intro fuel st s rest st1 a r h
    rw [scanLoopM_cons, h]
  · intro next ch rest cF hF st nm r h1 h2 h3
    simp only [stepChildLoop.eq_def, h1, h2, h3, symTagUDT, symTagEnum, symTagData,
      Nat.reduceBEq, Option.isNone_none, Bool.or_true, Bool.true_or, Bool.or_false,
      Bool.false_or, Bool.and_true, Bool.and_false, Bool.true_and, Bool.false_and,
      Bool.not_true, Bool.not_false]

set_option maxRecDepth 10000 in
/-- C3 (counterexample): the dispatched addSymbol call on the Broken
top-level UDT (its size unreadable, so createClassUDT fails) reports
DDR_RC_ERROR, yet the two-source batch that starts with the Broken
source completes with DDR_RC_OK, attempts both sources, builds the
second source's A, and never registers Broken - the construction-step
error aborted neither the source nor the batch. -/
theorem C3_construction_error_swallowed :
    run 11 (Call.addSymbolC brokenSym none) {} = some { st := {}, rc := DDR_RC.error } ∧
    resC3swallow = some (stC3a, DDR_RC.ok, 2,
      [(allHandles, allReleased), (allHandles, allReleased)]) ∧
    mapFind stC3a.typeMap "Broken" = none :=
  ⟨cb_sym, resC3swallow_eval, rfl⟩

end PdbEmbed
